import Mathlib

/-!
# Reference-counted handles (`shared_ptr.h`)

A shallow embedding of `ref_counter`, `shared_ptr_wrapper` and `weak_ptr_wrapper`.

* Addresses are natural numbers, `0` is `nullptr`.
* `long` counters are unbounded integers: a counter is only ever changed by `++`/`--`
  from the initial `(1, 0)`, one step per handle operation, so the 64-bit range is
  never left.
* Handle objects live in a store indexed by object identity, so that `this` and
  `other` may alias exactly as C++ references do.
* A program either returns normally, propagates a C++ exception (the state at the
  throw is kept), or has undefined behaviour (no state).
-/

set_option autoImplicit false

namespace SharedPtr

/-! ## Data model -/

/-- Raw addresses; `0` is the null pointer. -/
abbrev Ptr := Nat

/-- The null pointer. -/
def nullptr : Ptr := 0

/-- C++ exceptions that can propagate out of the library. -/
inductive Exn where
  | logic_error (what : String)
  | ctor_exception
deriving DecidableEq, Repr

/-- Ways in which a call leaves defined behaviour. -/
inductive UB where
  | null_deref
  | use_after_free
  | double_free
  | dead_object
deriving DecidableEq, Repr

/-- The count block: `class ref_counter` with its two private `long` fields. -/
structure ref_counter where
  shared_refs : Int
  weak_refs : Int
deriving DecidableEq, Repr

/-- Fields of `shared_ptr_wrapper<T, DEL_STRATEGY>`. -/
structure shared_ptr_wrapper where
  obj_ptr : Ptr
  ref_cntr : Ptr
deriving DecidableEq, Repr

/-- Fields of `weak_ptr_wrapper<T, DEL_STRATEGY>`. -/
structure weak_ptr_wrapper where
  obj_ptr : Ptr
  ref_cntr : Ptr
deriving DecidableEq, Repr

/-- Machine state: the heap of count blocks, the live targets, the allocation
frontier (every address handed out so far is at most `brk`), the trace of targets
handed to `delete` (newest first), and the handle objects currently alive. -/
structure State where
  cntrs : Ptr → Option ref_counter
  objs : Ptr → Bool
  brk : Nat
  disposed : List Ptr
  sp : Nat → Option shared_ptr_wrapper
  wp : Nat → Option weak_ptr_wrapper

/-- The state before anything has been allocated. -/
def State.init : State :=
  { cntrs := fun _ => none
    objs := fun _ => false
    brk := 0
    disposed := []
    sp := fun _ => none
    wp := fun _ => none }

/-- Outcome of running a piece of code. -/
inductive Res (α : Type) where
  | ok (a : α) (s : State)
  | thrown (e : Exn) (s : State)
  | undefined (u : UB)

/-- Code: a function from the state before to the outcome. -/
def Prog (α : Type) : Type := State → Res α

/-- Sequencing; an exception or undefined behaviour skips the rest. -/
def Prog.bind {α β : Type} (m : Prog α) (f : α → Prog β) : Prog β := fun s =>
  match m s with
  | .ok a s1 => f a s1
  | .thrown e s1 => .thrown e s1
  | .undefined u => .undefined u

instance : Monad Prog where
  pure a := fun s => .ok a s
  bind := Prog.bind

/-- Value of a normal return. -/
def Res.value {α : Type} : Res α → Option α
  | .ok a _ => some a
  | _ => none

/-- State after a normal return. -/
def Res.final {α : Type} : Res α → Option State
  | .ok _ s => some s
  | _ => none

/-- The exception that propagated, if one did. -/
def Res.exn {α : Type} : Res α → Option Exn
  | .thrown e _ => some e
  | _ => none

/-- The undefined behaviour that was hit, if any. -/
def Res.ub {α : Type} : Res α → Option UB
  | .undefined u => some u
  | _ => none

/-- State in which an exception reached the caller. -/
def Res.at_throw {α : Type} : Res α → Option State
  | .thrown _ s => some s
  | _ => none

/-! ## `ref_counter` -/

/-- The constructor `ref_counter()`: `shared_refs(1), weak_refs(0)`. -/
def ref_counter.new : ref_counter := { shared_refs := 1, weak_refs := 0 }

/-- Method `inc_shared`: `++shared_refs`. -/
def ref_counter.inc_shared (c : ref_counter) : ref_counter :=
  { c with shared_refs := c.shared_refs + 1 }

/-- Method `dec_shared`: throws when `shared_refs == 0`, else `--shared_refs`.
Returns the exception (if thrown) together with the object after the call. -/
def ref_counter.dec_shared (c : ref_counter) : Option Exn × ref_counter :=
  if c.shared_refs = 0 then
    (some (.logic_error "shared references: already zero"), c)
  else
    (none, { c with shared_refs := c.shared_refs - 1 })

/-- Method `inc_weak`: `++weak_refs`. -/
def ref_counter.inc_weak (c : ref_counter) : ref_counter :=
  { c with weak_refs := c.weak_refs + 1 }

/-- Method `dec_weak`: throws when `weak_refs == 0`, else `--weak_refs`. -/
def ref_counter.dec_weak (c : ref_counter) : Option Exn × ref_counter :=
  if c.weak_refs = 0 then
    (some (.logic_error "weak references: already zero"), c)
  else
    (none, { c with weak_refs := c.weak_refs - 1 })

/-- Method `get_shared_refs`. -/
def ref_counter.get_shared_refs (c : ref_counter) : Int := c.shared_refs

/-- Method `get_weak_refs`. -/
def ref_counter.get_weak_refs (c : ref_counter) : Int := c.weak_refs

/-- Method `has_refs`: `shared_refs + weak_refs > 0`. -/
def ref_counter.has_refs (c : ref_counter) : Bool :=
  decide (c.shared_refs + c.weak_refs > 0)

/-! ## Primitive steps -/

/-- The statement `throw e`. -/
def throw_exn {α : Type} (e : Exn) : Prog α := fun s => .thrown e s

/-- Run `m`; if an exception propagates out of it, run `cleanup` (the destructors of
the locals in scope) and let the exception continue. -/
def unwinding {α : Type} (m : Prog α) (cleanup : Prog Unit) : Prog α := fun s =>
  match m s with
  | .ok a s1 => .ok a s1
  | .thrown e s1 =>
    match cleanup s1 with
    | .ok _ s2 => .thrown e s2
    | .thrown e2 s2 => .thrown e2 s2
    | .undefined u => .undefined u
  | .undefined u => .undefined u

/-- Read the strong handle object with identity `i`. -/
def load_sp (i : Nat) : Prog shared_ptr_wrapper := fun s =>
  match s.sp i with
  | some h => .ok h s
  | none => .undefined .dead_object

/-- Write the strong handle object with identity `i`. -/
def store_sp (i : Nat) (h : shared_ptr_wrapper) : Prog Unit := fun s =>
  .ok () { s with sp := Function.update s.sp i (some h) }

/-- End of lifetime of the strong handle object `i`. -/
def kill_sp (i : Nat) : Prog Unit := fun s =>
  .ok () { s with sp := Function.update s.sp i none }

/-- Read the weak handle object with identity `i`. -/
def load_wp (i : Nat) : Prog weak_ptr_wrapper := fun s =>
  match s.wp i with
  | some h => .ok h s
  | none => .undefined .dead_object

/-- Write the weak handle object with identity `i`. -/
def store_wp (i : Nat) (h : weak_ptr_wrapper) : Prog Unit := fun s =>
  .ok () { s with wp := Function.update s.wp i (some h) }

/-- End of lifetime of the weak handle object `i`. -/
def kill_wp (i : Nat) : Prog Unit := fun s =>
  .ok () { s with wp := Function.update s.wp i none }

/-- Read `*p` for a count-block pointer `p`. -/
def deref (p : Ptr) : Prog ref_counter := fun s =>
  if p = nullptr then .undefined .null_deref
  else
    match s.cntrs p with
    | some c => .ok c s
    | none => .undefined .use_after_free

/-- Write `*p`. -/
def poke (p : Ptr) (c : ref_counter) : Prog Unit := fun s =>
  .ok () { s with cntrs := Function.update s.cntrs p (some c) }

/-- The expression `new ref_counter()`: a block at the next free address. -/
def new_ref_counter : Prog Ptr := fun s =>
  .ok (s.brk + 1)
    { s with cntrs := Function.update s.cntrs (s.brk + 1) (some ref_counter.new)
             brk := s.brk + 1 }

/-- The statement `delete p` for a count-block pointer. -/
def delete_ref_counter (p : Ptr) : Prog Unit := fun s =>
  if p = nullptr then .ok () s
  else
    match s.cntrs p with
    | some _ => .ok () { s with cntrs := Function.update s.cntrs p none }
    | none => .undefined .double_free

/-- The expression `new T(args...)`. When the constructor of the target throws, the
new-expression itself returns the memory, so the state is the one before. -/
def new_T (ctor_throws : Bool) : Prog Ptr := fun s =>
  if ctor_throws then .thrown .ctor_exception s
  else
    .ok (s.brk + 1)
      { s with objs := Function.update s.objs (s.brk + 1) true
               brk := s.brk + 1 }

/-- The expression `new T[size]`; `fail_at = some k` with `k < size` says that the
constructor of element `k` throws. The new-expression then destroys the elements built
so far and returns the memory, so the state is the one before. -/
def new_T_array (size : Nat) (fail_at : Option Nat) : Prog Ptr :=
  new_T (match fail_at with
    | some k => decide (k < size)
    | none => false)

/-- Method `DEL_STRATEGY::dispose(ptr)`: `delete ptr` (`PTR_STRATEGY`) or `delete[] ptr`
(`ARRAY_STRATEGY`). Deleting null does nothing; deleting a live target ends its
life and is recorded in the trace; deleting anything else is undefined. -/
def dispose (p : Ptr) : Prog Unit := fun s =>
  if p = nullptr then .ok () s
  else if s.objs p then
    .ok () { s with objs := Function.update s.objs p false
                    disposed := p :: s.disposed }
  else .undefined .double_free

/-- The call `p->inc_shared()`. -/
def call_inc_shared (p : Ptr) : Prog Unit := do
  let c ← deref p
  poke p c.inc_shared

/-- The call `p->dec_shared()`. -/
def call_dec_shared (p : Ptr) : Prog Unit := do
  let c ← deref p
  poke p c.dec_shared.2
  match c.dec_shared.1 with
  | some e => throw_exn e
  | none => pure ()

/-- The call `p->inc_weak()`. -/
def call_inc_weak (p : Ptr) : Prog Unit := do
  let c ← deref p
  poke p c.inc_weak

/-- The call `p->dec_weak()`. -/
def call_dec_weak (p : Ptr) : Prog Unit := do
  let c ← deref p
  poke p c.dec_weak.2
  match c.dec_weak.1 with
  | some e => throw_exn e
  | none => pure ()

/-- The call `p->get_shared_refs()`. -/
def call_get_shared_refs (p : Ptr) : Prog Int := do
  let c ← deref p
  pure c.get_shared_refs

/-- The call `p->has_refs()`. -/
def call_has_refs (p : Ptr) : Prog Bool := do
  let c ← deref p
  pure c.has_refs

/-! ## `shared_ptr_wrapper` -/

/-- Private `reset_no_delete`: both fields become null. -/
def shared_ptr_wrapper.reset_no_delete (this : Nat) : Prog Unit := do
  let _ ← load_sp this
  store_sp this { obj_ptr := nullptr, ref_cntr := nullptr }

/-- Private `check_delete_ptr`. -/
def shared_ptr_wrapper.check_delete_ptr (this : Nat) : Prog Unit := do
  let t ← load_sp this
  if t.ref_cntr = nullptr then
    pure ()
  else do
    call_dec_shared t.ref_cntr
    let n ← call_get_shared_refs t.ref_cntr
    (if n = 0 then dispose t.obj_ptr else pure ())
    let r ← call_has_refs t.ref_cntr
    (if !r then delete_ref_counter t.ref_cntr else pure ())
    shared_ptr_wrapper.reset_no_delete this

/-- Private `reset_ref_counter(ptr, cntr)`: overwrite both fields. -/
def shared_ptr_wrapper.reset_ref_counter (this : Nat) (ptr cntr : Ptr) : Prog Unit := do
  let _ ← load_sp this
  store_sp this { obj_ptr := ptr, ref_cntr := cntr }

/-- Private `set_ptr(ptr)`: `ref_cntr = new ref_counter(); obj_ptr = ptr;`. -/
def shared_ptr_wrapper.set_ptr (this : Nat) (ptr : Ptr) : Prog Unit := do
  let c ← new_ref_counter
  store_sp this { obj_ptr := ptr, ref_cntr := c }

/-- Constructor `shared_ptr_wrapper()`: `set_ptr(nullptr)`. -/
def shared_ptr_wrapper.ctor_default (this : Nat) : Prog Unit :=
  shared_ptr_wrapper.set_ptr this nullptr

/-- Constructor `shared_ptr_wrapper(nullptr_t)`: `set_ptr(nullptr)`. -/
def shared_ptr_wrapper.ctor_nullptr (this : Nat) : Prog Unit :=
  shared_ptr_wrapper.set_ptr this nullptr

/-- Constructor `explicit shared_ptr_wrapper(Y* ptr)`: `set_ptr(ptr)`. -/
def shared_ptr_wrapper.ctor_adopt (this : Nat) (ptr : Ptr) : Prog Unit :=
  shared_ptr_wrapper.set_ptr this ptr

/-- Copy constructor `shared_ptr_wrapper(const shared_ptr_wrapper&)`. -/
def shared_ptr_wrapper.ctor_copy (this other : Nat) : Prog Unit := do
  let o ← load_sp other
  store_sp this { obj_ptr := o.obj_ptr, ref_cntr := o.ref_cntr }
  let t ← load_sp this
  call_inc_shared t.ref_cntr

/-- Move constructor `shared_ptr_wrapper(shared_ptr_wrapper&&)`. -/
def shared_ptr_wrapper.ctor_move (this other : Nat) : Prog Unit := do
  let o ← load_sp other
  store_sp this { obj_ptr := o.obj_ptr, ref_cntr := o.ref_cntr }
  shared_ptr_wrapper.reset_no_delete other

/-- Constructor `shared_ptr_wrapper(const weak_ptr_wrapper&)`. -/
def shared_ptr_wrapper.ctor_from_weak (this ptr : Nat) : Prog Unit := do
  let w ← load_wp ptr
  store_sp this { obj_ptr := w.obj_ptr, ref_cntr := w.ref_cntr }
  let t ← load_sp this
  call_inc_shared t.ref_cntr

/-- Method `reset()`: `check_delete_ptr()`. -/
def shared_ptr_wrapper.reset (this : Nat) : Prog Unit :=
  shared_ptr_wrapper.check_delete_ptr this

/-- Destructor `~shared_ptr_wrapper()`: `check_delete_ptr()`, then the object is gone. -/
def shared_ptr_wrapper.dtor (this : Nat) : Prog Unit := do
  shared_ptr_wrapper.check_delete_ptr this
  kill_sp this

/-- Method `reset(U* ptr)`: `check_delete_ptr(); set_ptr(ptr);`. -/
def shared_ptr_wrapper.reset_to (this : Nat) (ptr : Ptr) : Prog Unit := do
  shared_ptr_wrapper.check_delete_ptr this
  shared_ptr_wrapper.set_ptr this ptr

/-- Copy assignment `operator=(const shared_ptr_wrapper&)`. The fields of `other`
are read after `reset()` has run, as in the source. -/
def shared_ptr_wrapper.assign_copy (this other : Nat) : Prog Unit := do
  shared_ptr_wrapper.reset this
  let o ← load_sp other
  let t ← load_sp this
  store_sp this { t with obj_ptr := o.obj_ptr }
  let o ← load_sp other
  let t ← load_sp this
  store_sp this { t with ref_cntr := o.ref_cntr }
  let t ← load_sp this
  call_inc_shared t.ref_cntr

/-- Move assignment `operator=(shared_ptr_wrapper&&)`. -/
def shared_ptr_wrapper.assign_move (this other : Nat) : Prog Unit := do
  shared_ptr_wrapper.reset this
  let o ← load_sp other
  let t ← load_sp this
  store_sp this { t with obj_ptr := o.obj_ptr }
  let o ← load_sp other
  let t ← load_sp this
  store_sp this { t with ref_cntr := o.ref_cntr }
  shared_ptr_wrapper.reset_no_delete other

/-- Method `swap(other)`: `std::swap` on each field. -/
def shared_ptr_wrapper.swap (this other : Nat) : Prog Unit := do
  let t ← load_sp this
  let o ← load_sp other
  store_sp this { t with obj_ptr := o.obj_ptr }
  let o ← load_sp other
  store_sp other { o with obj_ptr := t.obj_ptr }
  let t ← load_sp this
  let o ← load_sp other
  store_sp this { t with ref_cntr := o.ref_cntr }
  let o ← load_sp other
  store_sp other { o with ref_cntr := t.ref_cntr }

/-- Method `get()`. -/
def shared_ptr_wrapper.get (this : Nat) : Prog Ptr := do
  let t ← load_sp this
  pure t.obj_ptr

/-- Method `use_count()`. -/
def shared_ptr_wrapper.use_count (this : Nat) : Prog Int := do
  let t ← load_sp this
  if t.ref_cntr = nullptr then
    pure 0
  else
    call_get_shared_refs t.ref_cntr

/-- Method `unique()`: `use_count() == 1`. -/
def shared_ptr_wrapper.unique (this : Nat) : Prog Bool := do
  let n ← shared_ptr_wrapper.use_count this
  pure (decide (n = 1))

/-- Conversion `explicit operator bool()`: `get() != nullptr`. -/
def shared_ptr_wrapper.to_bool (this : Nat) : Prog Bool := do
  let p ← shared_ptr_wrapper.get this
  pure (decide (p ≠ nullptr))

/-- Member `operator==`: `get() == other.get()`. -/
def shared_ptr_wrapper.op_eq (this other : Nat) : Prog Bool := do
  let p ← shared_ptr_wrapper.get this
  let q ← shared_ptr_wrapper.get other
  pure (decide (p = q))

/-- Member `operator!=`: `!(*this == other)`. -/
def shared_ptr_wrapper.op_ne (this other : Nat) : Prog Bool := do
  let e ← shared_ptr_wrapper.op_eq this other
  pure (!e)

/-- Member `operator<`: `get() < other.get()`. -/
def shared_ptr_wrapper.op_lt (this other : Nat) : Prog Bool := do
  let p ← shared_ptr_wrapper.get this
  let q ← shared_ptr_wrapper.get other
  pure (decide (p < q))

/-- Member `operator>`: `!(*this < other) && *this != other`; the right operand of
`&&` is evaluated only when the left one is true. -/
def shared_ptr_wrapper.op_gt (this other : Nat) : Prog Bool := do
  let l ← shared_ptr_wrapper.op_lt this other
  if !l then
    shared_ptr_wrapper.op_ne this other
  else
    pure false

/-- Member `operator<=`: `!(get() > other.get())`. -/
def shared_ptr_wrapper.op_le (this other : Nat) : Prog Bool := do
  let p ← shared_ptr_wrapper.get this
  let q ← shared_ptr_wrapper.get other
  pure (!decide (p > q))

/-- Member `operator>=`: `!(get() < other.get())`. -/
def shared_ptr_wrapper.op_ge (this other : Nat) : Prog Bool := do
  let p ← shared_ptr_wrapper.get this
  let q ← shared_ptr_wrapper.get other
  pure (!decide (p < q))

/-- Free `operator==(ptr, nullptr_t)` and `operator==(nullptr_t, ptr)`:
`ptr.get() == nullptr`. -/
def shared_ptr_wrapper.op_eq_nullptr (ptr : Nat) : Prog Bool := do
  let p ← shared_ptr_wrapper.get ptr
  pure (decide (p = nullptr))

/-- Free `operator!=(ptr, nullptr_t)` and `operator!=(nullptr_t, ptr)`:
`ptr.get() != nullptr`. -/
def shared_ptr_wrapper.op_ne_nullptr (ptr : Nat) : Prog Bool := do
  let p ← shared_ptr_wrapper.get ptr
  pure (decide (p ≠ nullptr))

/-! ## `weak_ptr_wrapper` -/

/-- Private `reset_no_delete`: both fields become null. -/
def weak_ptr_wrapper.reset_no_delete (this : Nat) : Prog Unit := do
  let _ ← load_wp this
  store_wp this { obj_ptr := nullptr, ref_cntr := nullptr }

/-- Private `check_delete_ptr`: no test of `ref_cntr` before the first call. -/
def weak_ptr_wrapper.check_delete_ptr (this : Nat) : Prog Unit := do
  let t ← load_wp this
  call_dec_weak t.ref_cntr
  let r ← call_has_refs t.ref_cntr
  (if !r then delete_ref_counter t.ref_cntr else pure ())
  weak_ptr_wrapper.reset_no_delete this

/-- Constructor `weak_ptr_wrapper()`: both fields null. -/
def weak_ptr_wrapper.ctor_default (this : Nat) : Prog Unit :=
  store_wp this { obj_ptr := nullptr, ref_cntr := nullptr }

/-- Constructor `weak_ptr_wrapper(const shared_ptr_wrapper&)`. -/
def weak_ptr_wrapper.ctor_from_shared (this ptr : Nat) : Prog Unit := do
  let p ← load_sp ptr
  store_wp this { obj_ptr := p.obj_ptr, ref_cntr := p.ref_cntr }
  let t ← load_wp this
  call_inc_weak t.ref_cntr

/-- Copy constructor `weak_ptr_wrapper(const weak_ptr_wrapper&)`. -/
def weak_ptr_wrapper.ctor_copy (this other : Nat) : Prog Unit := do
  let o ← load_wp other
  store_wp this { obj_ptr := o.obj_ptr, ref_cntr := o.ref_cntr }
  let t ← load_wp this
  call_inc_weak t.ref_cntr

/-- Copy assignment `operator=(const weak_ptr_wrapper&)`: the old binding is
overwritten, not released. -/
def weak_ptr_wrapper.assign_copy (this other : Nat) : Prog Unit := do
  let o ← load_wp other
  let t ← load_wp this
  store_wp this { t with obj_ptr := o.obj_ptr }
  let o ← load_wp other
  let t ← load_wp this
  store_wp this { t with ref_cntr := o.ref_cntr }
  let t ← load_wp this
  call_inc_weak t.ref_cntr

/-- Method `reset()`: `check_delete_ptr()`. -/
def weak_ptr_wrapper.reset (this : Nat) : Prog Unit :=
  weak_ptr_wrapper.check_delete_ptr this

/-- Destructor `~weak_ptr_wrapper()`: `check_delete_ptr()`, then the object is gone. -/
def weak_ptr_wrapper.dtor (this : Nat) : Prog Unit := do
  weak_ptr_wrapper.check_delete_ptr this
  kill_wp this

/-- Method `swap(other)`: `std::swap` on each field. -/
def weak_ptr_wrapper.swap (this other : Nat) : Prog Unit := do
  let t ← load_wp this
  let o ← load_wp other
  store_wp this { t with obj_ptr := o.obj_ptr }
  let o ← load_wp other
  store_wp other { o with obj_ptr := t.obj_ptr }
  let t ← load_wp this
  let o ← load_wp other
  store_wp this { t with ref_cntr := o.ref_cntr }
  let o ← load_wp other
  store_wp other { o with ref_cntr := t.ref_cntr }

/-- Method `use_count()`. -/
def weak_ptr_wrapper.use_count (this : Nat) : Prog Int := do
  let t ← load_wp this
  if t.ref_cntr = nullptr then
    pure 0
  else
    call_get_shared_refs t.ref_cntr

/-- Method `expired()`. -/
def weak_ptr_wrapper.expired (this : Nat) : Prog Bool := do
  let t ← load_wp this
  if t.ref_cntr = nullptr then
    pure true
  else do
    let n ← call_get_shared_refs t.ref_cntr
    pure (decide (n = 0))

/-- Method `lock()`; the returned handle is constructed in the object `ret`. -/
def weak_ptr_wrapper.lock (this ret : Nat) : Prog Unit := do
  let e ← weak_ptr_wrapper.expired this
  if e then
    shared_ptr_wrapper.ctor_default ret
  else
    shared_ptr_wrapper.ctor_from_weak ret this

/-! ## Factories -/

/-- Function `make_shared<T>(args...)`. The local `ptr` is the object `this`, in which
the result is returned (the return value is built in place); if the target's
constructor throws, unwinding runs the destructor of `ptr`. -/
def make_shared (this : Nat) (ctor_throws : Bool) : Prog Unit := do
  shared_ptr_wrapper.ctor_default this
  unwinding
    (do
      let cntr ← new_ref_counter
      let obj ← new_T ctor_throws
      shared_ptr_wrapper.reset_ref_counter this obj cntr)
    (shared_ptr_wrapper.dtor this)

/-- Function `make_shared_array<T>(size)`: as `make_shared`, with `new T[size]`. -/
def make_shared_array (this : Nat) (size : Nat) (fail_at : Option Nat) : Prog Unit := do
  shared_ptr_wrapper.ctor_default this
  unwinding
    (do
      let cntr ← new_ref_counter
      let obj ← new_T_array size fail_at
      shared_ptr_wrapper.reset_ref_counter this obj cntr)
    (shared_ptr_wrapper.dtor this)

/-! ## Sequences of calls -/

/-- Run `f` on each identity of the list, in order. -/
def for_each (f : Nat → Prog Unit) : List Nat → Prog Unit
  | [] => pure ()
  | i :: rest => do
    f i
    for_each f rest

/-- Release of one strong handle: `reset()` when `by_reset i`, else the destructor. -/
def release (by_reset : Nat → Bool) (i : Nat) : Prog Unit :=
  if by_reset i then shared_ptr_wrapper.reset i else shared_ptr_wrapper.dtor i

/-- The calls `auto s = make_shared<T>(); weak_ptr<T> w(s); s.reset();` with `s` the
strong object `0` and `w` the weak object `0`. -/
def expired_weak_scenario : Prog Unit := do
  make_shared 0 false
  weak_ptr_wrapper.ctor_from_shared 0 0
  shared_ptr_wrapper.reset 0

/-- The calls `auto a = make_shared<T>(); auto b = make_shared<T>(); weak_ptr<T> w(a);
weak_ptr<T> v(b); w = v;` with `a`, `b` the strong objects `0`, `1` and `w`, `v` the
weak objects `0`, `1`. -/
def weak_reassign_scenario : Prog Unit := do
  make_shared 0 false
  make_shared 1 false
  weak_ptr_wrapper.ctor_from_shared 0 0
  weak_ptr_wrapper.ctor_from_shared 1 1
  weak_ptr_wrapper.assign_copy 0 1

/-- The calls `auto a = make_shared<T>(); auto b = a; a = a;` with `a`, `b` the strong
objects `0`, `1`. -/
def self_assign_shared_scenario : Prog Unit := do
  make_shared 0 false
  shared_ptr_wrapper.ctor_copy 1 0
  shared_ptr_wrapper.assign_copy 0 0

/-- The calls `auto first_ptr = make_shared<T>(); auto second_ptr = make_shared<T>();`
that open `test_swap`, with the strong objects `0` and `1`; no weak handle exists. -/
def two_factories_scenario : Prog Unit := do
  make_shared 0 false
  make_shared 1 false

/-! ## Example states -/

/-- Two strong handles (objects `0` and `1`) and one weak handle (object `0`) on the
count block at address `2`, whose target lives at address `1`. -/
def ex_two_strong_one_weak : State :=
  { cntrs := fun p => if p = 2 then some { shared_refs := 2, weak_refs := 1 } else none
    objs := fun p => decide (p = 1)
    brk := 2
    disposed := []
    sp := fun i => if i = 0 ∨ i = 1 then some { obj_ptr := 1, ref_cntr := 2 } else none
    wp := fun i => if i = 0 then some { obj_ptr := 1, ref_cntr := 2 } else none }

/-- One weak handle (object `0`) on the block at address `2` after every strong handle
was released: the target at address `1` has been disposed. -/
def ex_expired_weak : State :=
  { cntrs := fun p => if p = 2 then some { shared_refs := 0, weak_refs := 1 } else none
    objs := fun _ => false
    brk := 2
    disposed := [1]
    sp := fun _ => none
    wp := fun i => if i = 0 then some { obj_ptr := 1, ref_cntr := 2 } else none }

/-- A strong handle (object `0`) that has been reset: both fields null. -/
def ex_reset_strong : State :=
  { cntrs := fun _ => none
    objs := fun _ => false
    brk := 2
    disposed := [1]
    sp := fun i => if i = 0 then some { obj_ptr := nullptr, ref_cntr := nullptr } else none
    wp := fun _ => none }

/-- The last strong handle (object `0`) and one weak handle (object `0`) on the count
block at address `2`, whose target lives at address `1`. -/
def ex_last_strong : State :=
  { cntrs := fun p => if p = 2 then some { shared_refs := 1, weak_refs := 1 } else none
    objs := fun p => decide (p = 1)
    brk := 2
    disposed := []
    sp := fun i => if i = 0 then some { obj_ptr := 1, ref_cntr := 2 } else none
    wp := fun i => if i = 0 then some { obj_ptr := 1, ref_cntr := 2 } else none }

/-- Strong handles `0` and `2` and the weak handle `1` on the block at address `2`
(target at `1`); strong handle `1` and the weak handle `0` on the block at address `4`
(target at `3`). -/
def ex_two_blocks : State :=
  { cntrs := fun p =>
      if p = 2 then some { shared_refs := 2, weak_refs := 1 }
      else if p = 4 then some { shared_refs := 1, weak_refs := 1 }
      else none
    objs := fun p => decide (p = 1 ∨ p = 3)
    brk := 4
    disposed := []
    sp := fun i =>
      if i = 0 ∨ i = 2 then some { obj_ptr := 1, ref_cntr := 2 }
      else if i = 1 then some { obj_ptr := 3, ref_cntr := 4 }
      else none
    wp := fun i =>
      if i = 0 then some { obj_ptr := 3, ref_cntr := 4 }
      else if i = 1 then some { obj_ptr := 1, ref_cntr := 2 }
      else none }

/-- A default-constructed weak handle (object `0`) and nothing else. -/
def ex_empty_weak : State :=
  { cntrs := fun _ => none
    objs := fun _ => false
    brk := 0
    disposed := []
    sp := fun _ => none
    wp := fun i => if i = 0 then some { obj_ptr := nullptr, ref_cntr := nullptr } else none }

/-! ## Basic facts about sequencing -/

@[simp] theorem bind_apply {α β : Type} (m : Prog α) (f : α → Prog β) (s : State) :
    (m >>= f) s = match m s with
      | .ok a s1 => f a s1
      | .thrown e s1 => .thrown e s1
      | .undefined u => .undefined u := rfl

@[simp] theorem pure_apply {α : Type} (a : α) (s : State) :
    (pure a : Prog α) s = .ok a s := rfl

/-- Effect of the strong `check_delete_ptr` on a handle that has a count block. -/
theorem check_delete_ptr_bound (s : State) (i : Nat) (h : shared_ptr_wrapper) (c : ref_counter)
    (hi : s.sp i = some h) (hn : h.ref_cntr ≠ nullptr) (hc : s.cntrs h.ref_cntr = some c)
    (hpos : 0 < c.shared_refs) (hw : 0 ≤ c.weak_refs)
    (hlive : c.shared_refs = 1 → h.obj_ptr = nullptr ∨ s.objs h.obj_ptr = true) :
    ∃ s', shared_ptr_wrapper.check_delete_ptr i s = .ok () s' ∧
      s'.sp = Function.update s.sp i (some { obj_ptr := nullptr, ref_cntr := nullptr }) ∧
      s'.wp = s.wp ∧ s'.brk = s.brk ∧
      s'.cntrs = Function.update s.cntrs h.ref_cntr
        (if c.shared_refs = 1 ∧ c.weak_refs = 0 then none
         else some { shared_refs := c.shared_refs - 1, weak_refs := c.weak_refs }) ∧
      s'.objs = (if c.shared_refs = 1 ∧ h.obj_ptr ≠ nullptr
        then Function.update s.objs h.obj_ptr false else s.objs) ∧
      s'.disposed = (if c.shared_refs = 1 ∧ h.obj_ptr ≠ nullptr
        then h.obj_ptr :: s.disposed else s.disposed) := by
  have hne : c.shared_refs ≠ 0 := by omega
  by_cases h1 : c.shared_refs = 1
  · have hl := hlive h1
    by_cases hp : h.obj_ptr = nullptr
    · by_cases hw0 : c.weak_refs = 0
      · simp [shared_ptr_wrapper.check_delete_ptr, shared_ptr_wrapper.reset_no_delete, load_sp,
          store_sp, call_dec_shared, call_get_shared_refs, call_has_refs, deref, poke, dispose,
          delete_ref_counter, ref_counter.dec_shared, ref_counter.get_shared_refs,
          ref_counter.has_refs, hi, hn, hc, h1, hp, hw0]
      · have : 0 < c.weak_refs := by omega
        simp [shared_ptr_wrapper.check_delete_ptr, shared_ptr_wrapper.reset_no_delete, load_sp,
          store_sp, call_dec_shared, call_get_shared_refs, call_has_refs, deref, poke, dispose,
          delete_ref_counter, ref_counter.dec_shared, ref_counter.get_shared_refs,
          ref_counter.has_refs, hi, hn, hc, h1, hp, hw0, this]
    · have hlv : s.objs h.obj_ptr = true := by
        rcases hl with hl | hl
        · exact absurd hl hp
        · exact hl
      by_cases hw0 : c.weak_refs = 0
      · simp [shared_ptr_wrapper.check_delete_ptr, shared_ptr_wrapper.reset_no_delete, load_sp,
          store_sp, call_dec_shared, call_get_shared_refs, call_has_refs, deref, poke, dispose,
          delete_ref_counter, ref_counter.dec_shared, ref_counter.get_shared_refs,
          ref_counter.has_refs, hi, hn, hc, h1, hp, hw0, hlv]
      · have : 0 < c.weak_refs := by omega
        simp [shared_ptr_wrapper.check_delete_ptr, shared_ptr_wrapper.reset_no_delete, load_sp,
          store_sp, call_dec_shared, call_get_shared_refs, call_has_refs, deref, poke, dispose,
          delete_ref_counter, ref_counter.dec_shared, ref_counter.get_shared_refs,
          ref_counter.has_refs, hi, hn, hc, h1, hp, hw0, hlv, this]
  · have h2 : ¬ (c.shared_refs - 1 = 0) := by omega
    have h3 : 0 < c.shared_refs - 1 + c.weak_refs := by omega
    simp [shared_ptr_wrapper.check_delete_ptr, shared_ptr_wrapper.reset_no_delete, load_sp,
      store_sp, call_dec_shared, call_get_shared_refs, call_has_refs, deref, poke, dispose,
      delete_ref_counter, ref_counter.dec_shared, ref_counter.get_shared_refs,
      ref_counter.has_refs, hi, hn, hc, h1, h2, h3, hne]


/-- Effect of releasing (by `reset()` or by the destructor) a strong handle that has a
count block. -/
theorem release_bound (by_reset : Nat → Bool) (s : State) (i : Nat) (h : shared_ptr_wrapper)
    (c : ref_counter)
    (hi : s.sp i = some h) (hn : h.ref_cntr ≠ nullptr) (hc : s.cntrs h.ref_cntr = some c)
    (hpos : 0 < c.shared_refs) (hw : 0 ≤ c.weak_refs)
    (hlive : c.shared_refs = 1 → h.obj_ptr = nullptr ∨ s.objs h.obj_ptr = true) :
    ∃ s', release by_reset i s = .ok () s' ∧
      (∀ j, j ≠ i → s'.sp j = s.sp j) ∧
      s'.sp i = (if by_reset i then some { obj_ptr := nullptr, ref_cntr := nullptr } else none) ∧
      s'.wp = s.wp ∧ s'.brk = s.brk ∧
      s'.cntrs = Function.update s.cntrs h.ref_cntr
        (if c.shared_refs = 1 ∧ c.weak_refs = 0 then none
         else some { shared_refs := c.shared_refs - 1, weak_refs := c.weak_refs }) ∧
      s'.objs = (if c.shared_refs = 1 ∧ h.obj_ptr ≠ nullptr
        then Function.update s.objs h.obj_ptr false else s.objs) ∧
      s'.disposed = (if c.shared_refs = 1 ∧ h.obj_ptr ≠ nullptr
        then h.obj_ptr :: s.disposed else s.disposed) := by
  obtain ⟨s1, hrun, hsp, hwp, hbrk, hcn, hob, hdi⟩ :=
    check_delete_ptr_bound s i h c hi hn hc hpos hw hlive
  by_cases hr : by_reset i = true
  · refine ⟨s1, ?_, ?_, ?_, hwp, hbrk, hcn, hob, hdi⟩
    · simp [release, hr, shared_ptr_wrapper.reset, hrun]
    · intro j hj
      simp [hsp, Function.update, hj]
    · simp [hsp, hr]
  · refine ⟨{ s1 with sp := Function.update s1.sp i none }, ?_, ?_, ?_, hwp, hbrk, hcn, hob, hdi⟩
    · simp [release, hr, shared_ptr_wrapper.dtor, hrun, kill_sp]
    · intro j hj
      simp [hsp, Function.update, hj]
    · simp [hr]

/-- Running over a list that starts with `i`. -/
theorem for_each_cons (f : Nat → Prog Unit) (i : Nat) (l : List Nat) (s : State) :
    for_each f (i :: l) s = match f i s with
      | .ok _ s1 => for_each f l s1
      | .thrown e s1 => .thrown e s1
      | .undefined u => .undefined u := by
  simp only [for_each, bind_apply]
  cases f i s <;> rfl

/-- Running over the empty list. -/
theorem for_each_nil (f : Nat → Prog Unit) (s : State) : for_each f [] s = .ok () s := rfl

/-- Releasing, one after the other, handles that all share the pair `(p, b)`, when the
strong count of `b` is their number plus `m`. -/
theorem release_list (by_reset : Nat → Bool) (p b : Ptr) (hb : b ≠ nullptr) :
    ∀ (l : List Nat) (s : State) (c : ref_counter) (m : Nat), l.Nodup →
      (∀ i ∈ l, s.sp i = some { obj_ptr := p, ref_cntr := b }) →
      s.cntrs b = some c → c.shared_refs = l.length + m → 0 ≤ c.weak_refs →
      (p = nullptr ∨ s.objs p = true) →
      ∃ s', for_each (release by_reset) l s = .ok () s' ∧
        s'.disposed = (if m = 0 ∧ l ≠ [] ∧ p ≠ nullptr then p :: s.disposed else s.disposed) ∧
        s'.objs = (if m = 0 ∧ l ≠ [] ∧ p ≠ nullptr then Function.update s.objs p false
                   else s.objs) ∧
        s'.cntrs b = (if m = 0 ∧ l ≠ [] ∧ c.weak_refs = 0 then none
                      else some { shared_refs := m, weak_refs := c.weak_refs }) ∧
        (∀ q, q ≠ b → s'.cntrs q = s.cntrs q) ∧ s'.wp = s.wp ∧ s'.brk = s.brk := by
  intro l
  induction l with
  | nil =>
    intro s c m _ _ hc hcount _ _
    refine ⟨s, rfl, by simp, by simp, ?_, fun _ _ => rfl, rfl, rfl⟩
    rw [hc]
    cases c
    simp at hcount
    simp [hcount]
  | cons i rest ih =>
    intro s c m hnd hall hc hcount hw hlive
    have hirest : i ∉ rest := (List.nodup_cons.mp hnd).1
    have hrestnd : rest.Nodup := (List.nodup_cons.mp hnd).2
    have hi : s.sp i = some { obj_ptr := p, ref_cntr := b } := hall i (by simp)
    have hlen : c.shared_refs = rest.length + 1 + m := by
      simp at hcount
      omega
    obtain ⟨s1, hrun, hsp, _, hwp, hbrk, hcn, hob, hdi⟩ :=
      release_bound by_reset s i { obj_ptr := p, ref_cntr := b } c hi hb hc (by omega) hw
        (fun _ => hlive)
    simp only at hcn hob hdi
    by_cases h1 : c.shared_refs = 1
    · have hr0 : rest.length = 0 := by omega
      have hm0 : m = 0 := by omega
      have hrest : rest = [] := List.length_eq_zero.mp hr0
      subst hrest
      subst hm0
      refine ⟨s1, ?_, ?_, ?_, ?_, ?_, hwp, hbrk⟩
      · rw [for_each_cons, hrun]
        rfl
      · simp [hdi, h1]
      · simp [hob, h1]
      · simp [hcn, h1]
      · intro q hq
        simp [hcn, Function.update, hq]
    · have hne : ¬ (c.shared_refs = 1 ∧ c.weak_refs = 0) := fun e => h1 e.1
      have hne2 : ¬ (c.shared_refs = 1 ∧ p ≠ nullptr) := fun e => h1 e.1
      rw [if_neg hne] at hcn
      rw [if_neg hne2] at hob hdi
      obtain ⟨s2, hrun2, hdi2, hob2, hcn2, hoth2, hwp2, hbrk2⟩ :=
        ih s1 { shared_refs := c.shared_refs - 1, weak_refs := c.weak_refs } m hrestnd
          (fun j hj => by
            have hji : j ≠ i := fun e => hirest (e ▸ hj)
            rw [hsp j hji]
            exact hall j (by simp [hj]))
          (by simp [hcn]) (by simp; omega) hw (by rw [hob]; exact hlive)
      have hcond : m = 0 → rest ≠ [] := by
        intro hm e
        subst e
        simp at hlen
        omega
      refine ⟨s2, ?_, ?_, ?_, ?_, ?_, hwp2.trans hwp, hbrk2.trans hbrk⟩
      · rw [for_each_cons, hrun]
        exact hrun2
      · rw [hdi2, hdi]
        by_cases hm : m = 0
        · simp [hm, hcond hm]
        · simp [hm]
      · rw [hob2, hob]
        by_cases hm : m = 0
        · simp [hm, hcond hm]
        · simp [hm]
      · rw [hcn2]
        by_cases hm : m = 0
        · simp [hm, hcond hm]
        · simp [hm]
      · intro q hq
        rw [hoth2 q hq, hcn]
        simp [Function.update, hq]



/-! # The claims -/

/-! ## C1 -/

/-- C1: copy-constructing `b` from a strong handle `a` that has a count block leaves
both with the same target and the same `use_count()`, which is the `use_count()` of
`a` before the copy plus one; the weak count of the block and every other block are
unchanged. -/
theorem ctor_copy_use_count (s : State) (a b : Nat) (h : shared_ptr_wrapper) (c : ref_counter)
    (hab : b ≠ a) (ha : s.sp a = some h) (hn : h.ref_cntr ≠ nullptr)
    (hc : s.cntrs h.ref_cntr = some c) :
    ∃ s', shared_ptr_wrapper.ctor_copy b a s = .ok () s' ∧
      shared_ptr_wrapper.get a s' = .ok h.obj_ptr s' ∧
      shared_ptr_wrapper.get b s' = .ok h.obj_ptr s' ∧
      s'.sp a = some h ∧ s'.sp b = some h ∧
      shared_ptr_wrapper.use_count a s = .ok c.shared_refs s ∧
      shared_ptr_wrapper.use_count a s' = .ok (c.shared_refs + 1) s' ∧
      shared_ptr_wrapper.use_count b s' = .ok (c.shared_refs + 1) s' ∧
      s'.cntrs h.ref_cntr =
        some { shared_refs := c.shared_refs + 1, weak_refs := c.weak_refs } ∧
      (∀ p, p ≠ h.ref_cntr → s'.cntrs p = s.cntrs p) := by
  simp [shared_ptr_wrapper.ctor_copy, shared_ptr_wrapper.get, shared_ptr_wrapper.use_count,
    load_sp, store_sp, call_inc_shared, call_get_shared_refs, deref, poke, ha, hn, hc, hab,
    ref_counter.inc_shared, ref_counter.get_shared_refs, Function.update, Ne.symm hab]
  intro p hp
  simp [hp]

/-- C1 at a concrete state: copying handle `0` (count 2) into object `2` gives count 3. -/
theorem ctor_copy_use_count_witness :
    ((2 : Nat) ≠ 0 ∧ ex_two_strong_one_weak.sp 0 = some { obj_ptr := 1, ref_cntr := 2 } ∧
      (2 : Ptr) ≠ nullptr ∧
      ex_two_strong_one_weak.cntrs 2 = some { shared_refs := 2, weak_refs := 1 }) ∧
    ∃ s', shared_ptr_wrapper.ctor_copy 2 0 ex_two_strong_one_weak = .ok () s' ∧
      shared_ptr_wrapper.get 0 s' = .ok 1 s' ∧
      shared_ptr_wrapper.get 2 s' = .ok 1 s' ∧
      s'.sp 0 = some { obj_ptr := 1, ref_cntr := 2 } ∧
      s'.sp 2 = some { obj_ptr := 1, ref_cntr := 2 } ∧
      shared_ptr_wrapper.use_count 0 ex_two_strong_one_weak = .ok 2 ex_two_strong_one_weak ∧
      shared_ptr_wrapper.use_count 0 s' = .ok (2 + 1) s' ∧
      shared_ptr_wrapper.use_count 2 s' = .ok (2 + 1) s' ∧
      s'.cntrs 2 = some { shared_refs := 2 + 1, weak_refs := 1 } ∧
      (∀ p, p ≠ 2 → s'.cntrs p = ex_two_strong_one_weak.cntrs p) :=
  ⟨⟨by decide, rfl, by decide, rfl⟩,
    ctor_copy_use_count ex_two_strong_one_weak 0 2 { obj_ptr := 1, ref_cntr := 2 }
      { shared_refs := 2, weak_refs := 1 } (by decide) rfl (by decide) rfl⟩

/-! ## C2 -/

/-- C3, counterexample: a default-constructed strong handle, and one constructed from
`nullptr`, hold no target (`get()` is null) but report `use_count() == 1`, and the
constructor has allocated a count block at address `1`, which was free before. -/
theorem default_ctor_use_count_counterexample :
    ((shared_ptr_wrapper.ctor_default 0 >>= fun _ => shared_ptr_wrapper.get 0)
        State.init).value = some nullptr ∧
    ((shared_ptr_wrapper.ctor_default 0 >>= fun _ => shared_ptr_wrapper.use_count 0)
        State.init).value = some 1 ∧
    ((shared_ptr_wrapper.ctor_nullptr 0 >>= fun _ => shared_ptr_wrapper.get 0)
        State.init).value = some nullptr ∧
    ((shared_ptr_wrapper.ctor_nullptr 0 >>= fun _ => shared_ptr_wrapper.use_count 0)
        State.init).value = some 1 ∧
    State.init.cntrs 1 = none ∧
    (((shared_ptr_wrapper.ctor_default 0) State.init).final.map fun s => s.cntrs 1) =
      some (some { shared_refs := 1, weak_refs := 0 }) := by
  refine ⟨rfl, rfl, rfl, rfl, rfl, rfl⟩

/-- C3, amended: for a live strong handle whose count block, when it has one, is
allocated with a positive strong count, `use_count() == 0` holds exactly when the
handle has no count block. A default-constructed handle and a handle constructed from
`nullptr` hold no target but allocate a fresh block `(1, 0)` and report
`use_count() == 1`. -/
theorem use_count_zero_iff_no_block (s : State) (i : Nat) (h : shared_ptr_wrapper)
    (s0 : State) (j : Nat)
    (hi : s.sp i = some h)
    (hblk : h.ref_cntr ≠ nullptr → ∃ c, s.cntrs h.ref_cntr = some c ∧ 0 < c.shared_refs) :
    ((shared_ptr_wrapper.use_count i s).value = some 0 ↔ h.ref_cntr = nullptr) ∧
    (∃ s', shared_ptr_wrapper.ctor_default j s0 = .ok () s' ∧
      s0.brk + 1 ≠ nullptr ∧
      s'.cntrs (s0.brk + 1) = some { shared_refs := 1, weak_refs := 0 } ∧
      s'.sp j = some { obj_ptr := nullptr, ref_cntr := s0.brk + 1 } ∧
      shared_ptr_wrapper.get j s' = .ok nullptr s' ∧
      shared_ptr_wrapper.use_count j s' = .ok 1 s') ∧
    (∃ s', shared_ptr_wrapper.ctor_nullptr j s0 = .ok () s' ∧
      s0.brk + 1 ≠ nullptr ∧
      s'.cntrs (s0.brk + 1) = some { shared_refs := 1, weak_refs := 0 } ∧
      s'.sp j = some { obj_ptr := nullptr, ref_cntr := s0.brk + 1 } ∧
      shared_ptr_wrapper.get j s' = .ok nullptr s' ∧
      shared_ptr_wrapper.use_count j s' = .ok 1 s') := by
  refine ⟨?_, ?_, ?_⟩
  · by_cases hn : h.ref_cntr = nullptr
    · simp [shared_ptr_wrapper.use_count, load_sp, hi, hn, Res.value]
    · obtain ⟨c, hc, hpos⟩ := hblk hn
      have : c.shared_refs ≠ 0 := by omega
      simp [shared_ptr_wrapper.use_count, load_sp, hi, hn, Res.value, call_get_shared_refs,
        deref, hc, ref_counter.get_shared_refs, this]
  · simp [shared_ptr_wrapper.ctor_default, shared_ptr_wrapper.set_ptr, new_ref_counter,
      store_sp, shared_ptr_wrapper.get, shared_ptr_wrapper.use_count, load_sp,
      call_get_shared_refs, deref, ref_counter.get_shared_refs, ref_counter.new, nullptr]
  · simp [shared_ptr_wrapper.ctor_nullptr, shared_ptr_wrapper.set_ptr, new_ref_counter,
      store_sp, shared_ptr_wrapper.get, shared_ptr_wrapper.use_count, load_sp,
      call_get_shared_refs, deref, ref_counter.get_shared_refs, ref_counter.new, nullptr]

/-- C3, amended, at concrete states: the reset handle of `ex_reset_strong`, the handle
of `ex_last_strong` (which has a block, count `1`), and the default constructor run in
the initial state. -/
theorem use_count_zero_iff_no_block_witness :
    (ex_reset_strong.sp 0 = some { obj_ptr := nullptr, ref_cntr := nullptr } ∧
      (nullptr ≠ nullptr →
        ∃ c, ex_reset_strong.cntrs nullptr = some c ∧ 0 < c.shared_refs)) ∧
    (((shared_ptr_wrapper.use_count 0 ex_reset_strong).value = some 0 ↔ nullptr = nullptr) ∧
    (∃ s', shared_ptr_wrapper.ctor_default 0 State.init = .ok () s' ∧
      State.init.brk + 1 ≠ nullptr ∧
      s'.cntrs (State.init.brk + 1) = some { shared_refs := 1, weak_refs := 0 } ∧
      s'.sp 0 = some { obj_ptr := nullptr, ref_cntr := State.init.brk + 1 } ∧
      shared_ptr_wrapper.get 0 s' = .ok nullptr s' ∧
      shared_ptr_wrapper.use_count 0 s' = .ok 1 s') ∧
    (∃ s', shared_ptr_wrapper.ctor_nullptr 0 State.init = .ok () s' ∧
      State.init.brk + 1 ≠ nullptr ∧
      s'.cntrs (State.init.brk + 1) = some { shared_refs := 1, weak_refs := 0 } ∧
      s'.sp 0 = some { obj_ptr := nullptr, ref_cntr := State.init.brk + 1 } ∧
      shared_ptr_wrapper.get 0 s' = .ok nullptr s' ∧
      shared_ptr_wrapper.use_count 0 s' = .ok 1 s')) ∧
    (ex_last_strong.sp 0 = some { obj_ptr := 1, ref_cntr := 2 } ∧
      ∃ c, ex_last_strong.cntrs 2 = some c ∧ 0 < c.shared_refs) ∧
    ((shared_ptr_wrapper.use_count 0 ex_last_strong).value = some 0 ↔ (2 : Ptr) = nullptr) :=
  ⟨⟨rfl, fun e => absurd rfl e⟩,
    use_count_zero_iff_no_block ex_reset_strong 0 { obj_ptr := nullptr, ref_cntr := nullptr }
      State.init 0 rfl (fun e => absurd rfl e),
    ⟨rfl, { shared_refs := 1, weak_refs := 1 }, rfl, by decide⟩,
    (use_count_zero_iff_no_block ex_last_strong 0 { obj_ptr := 1, ref_cntr := 2 }
      State.init 0 rfl (fun _ => ⟨{ shared_refs := 1, weak_refs := 1 }, rfl, by decide⟩)).1⟩

/-! ## C4 -/

/-- C4: a weak handle `w` is bound to a block whose strong count is the number of the
live strong handles `l` on it. After `j` of them have been released (by `reset()` or
destructor, in the order of `l`), `w.expired()` is false while `j` is less than their
number and true once all are released. A weak handle without a block is expired. -/
theorem weak_expired_iff_all_released (s : State) (w : Nat) (wh : weak_ptr_wrapper)
    (l : List Nat) (p : Ptr) (c : ref_counter) (by_reset : Nat → Bool) (j : Nat)
    (s0 : State) (w0 : Nat) (wh0 : weak_ptr_wrapper)
    (hw : s.wp w = some wh) (hb : wh.ref_cntr ≠ nullptr) (hc : s.cntrs wh.ref_cntr = some c)
    (hl : ∀ i ∈ l, s.sp i = some { obj_ptr := p, ref_cntr := wh.ref_cntr }) (hnd : l.Nodup)
    (hcount : c.shared_refs = l.length) (hwc : 0 < c.weak_refs)
    (hlive : p = nullptr ∨ s.objs p = true) (hj : j ≤ l.length)
    (hw0 : s0.wp w0 = some wh0) (hnull : wh0.ref_cntr = nullptr) :
    (∃ s', for_each (release by_reset) (l.take j) s = .ok () s' ∧
      weak_ptr_wrapper.expired w s' = .ok (decide (j = l.length)) s') ∧
    weak_ptr_wrapper.expired w0 s0 = .ok true s0 := by
  refine ⟨?_, ?_⟩
  · obtain ⟨s1, hrun, _, _, hcn, _, hwp, _⟩ :=
      release_list by_reset p wh.ref_cntr hb (l.take j) s c (l.length - j)
        (hnd.sublist (List.take_sublist j l))
        (fun i hi => hl i (List.mem_of_mem_take hi)) hc
        (by rw [hcount, List.length_take]; omega) (by omega) hlive
    refine ⟨s1, hrun, ?_⟩
    have hwne : c.weak_refs ≠ 0 := by omega
    simp only [hwne, and_false, if_false] at hcn
    by_cases hjl : j = l.length
    · simp [weak_ptr_wrapper.expired, load_wp, hwp, hw, hb, call_get_shared_refs, deref, hcn,
        ref_counter.get_shared_refs, hjl]
    · have : l.length - j ≠ 0 := by omega
      simp [weak_ptr_wrapper.expired, load_wp, hwp, hw, hb, call_get_shared_refs, deref, hcn,
        ref_counter.get_shared_refs, hjl, this]
  · simp [weak_ptr_wrapper.expired, load_wp, hw0, hnull]

/-- C4 at a concrete state: with two strong handles, `w` is not expired after one
release and is expired after both. -/
theorem weak_expired_iff_all_released_witness :
    (ex_two_strong_one_weak.wp 0 = some { obj_ptr := 1, ref_cntr := 2 } ∧
      (2 : Ptr) ≠ nullptr ∧
      ex_two_strong_one_weak.cntrs 2 = some { shared_refs := 2, weak_refs := 1 } ∧
      (∀ i ∈ [1, 0], ex_two_strong_one_weak.sp i = some { obj_ptr := 1, ref_cntr := 2 }) ∧
      [1, 0].Nodup ∧ (2 : Int) = ([1, 0] : List Nat).length ∧ (0 : Int) < 1 ∧
      ((1 : Ptr) = nullptr ∨ ex_two_strong_one_weak.objs 1 = true) ∧
      1 ≤ ([1, 0] : List Nat).length ∧ 2 ≤ ([1, 0] : List Nat).length ∧
      ex_empty_weak.wp 0 = some { obj_ptr := nullptr, ref_cntr := nullptr } ∧
      nullptr = nullptr) ∧
    ((∃ s', for_each (release (fun _ => false)) (([1, 0] : List Nat).take 1)
        ex_two_strong_one_weak = .ok () s' ∧
      weak_ptr_wrapper.expired 0 s' = .ok (decide (1 = ([1, 0] : List Nat).length)) s') ∧
    weak_ptr_wrapper.expired 0 ex_empty_weak = .ok true ex_empty_weak) ∧
    (∃ s', for_each (release (fun _ => false)) (([1, 0] : List Nat).take 2)
        ex_two_strong_one_weak = .ok () s' ∧
      weak_ptr_wrapper.expired 0 s' = .ok (decide (2 = ([1, 0] : List Nat).length)) s') :=
  ⟨⟨rfl, by decide, rfl, by decide, by decide, rfl, by decide, Or.inr rfl, by decide,
      by decide, rfl, rfl⟩,
    weak_expired_iff_all_released ex_two_strong_one_weak 0 { obj_ptr := 1, ref_cntr := 2 }
      [1, 0] 1 { shared_refs := 2, weak_refs := 1 } (fun _ => false) 1
      ex_empty_weak 0 { obj_ptr := nullptr, ref_cntr := nullptr }
      rfl (by decide) rfl (by decide) (by decide) rfl (by decide) (Or.inr rfl) (by decide)
      rfl rfl,
    (weak_expired_iff_all_released ex_two_strong_one_weak 0 { obj_ptr := 1, ref_cntr := 2 }
      [1, 0] 1 { shared_refs := 2, weak_refs := 1 } (fun _ => false) 2
      ex_empty_weak 0 { obj_ptr := nullptr, ref_cntr := nullptr }
      rfl (by decide) rfl (by decide) (by decide) rfl (by decide) (Or.inr rfl) (by decide)
      rfl rfl).1⟩

/-! ## C5 -/

/-- C5: for a weak handle `w` with fields `wh`, when `w.expired()` is false, `w.lock()`
returns a strong handle whose `get()` is the target address stored in `w`, bound to the
block of `w`, whose strong count is one higher than before and returns to its old value
when the returned handle is destroyed. When `w.expired()` is true, `w.lock()` returns
the handle that the default constructor builds: it holds no target (`get()` null,
boolean conversion false), and no count block that existed before the call is
changed. -/
theorem lock_spec (s : State) (w ret : Nat) (wh : weak_ptr_wrapper)
    (hw : s.wp w = some wh)
    (hnn : ∀ c, s.cntrs wh.ref_cntr = some c → 0 ≤ c.shared_refs ∧ 0 ≤ c.weak_refs)
    (hbrk : wh.ref_cntr ≤ s.brk) :
    (weak_ptr_wrapper.expired w s = .ok false s →
      ∃ c s' s'', s.cntrs wh.ref_cntr = some c ∧
        weak_ptr_wrapper.lock w ret s = .ok () s' ∧
        shared_ptr_wrapper.get ret s' = .ok wh.obj_ptr s' ∧
        s'.sp ret = some { obj_ptr := wh.obj_ptr, ref_cntr := wh.ref_cntr } ∧
        s'.cntrs wh.ref_cntr =
          some { shared_refs := c.shared_refs + 1, weak_refs := c.weak_refs } ∧
        shared_ptr_wrapper.use_count ret s' = .ok (c.shared_refs + 1) s' ∧
        shared_ptr_wrapper.dtor ret s' = .ok () s'' ∧
        s''.cntrs wh.ref_cntr = some c) ∧
    (weak_ptr_wrapper.expired w s = .ok true s →
      ∃ s', weak_ptr_wrapper.lock w ret s = .ok () s' ∧
        shared_ptr_wrapper.ctor_default ret s = .ok () s' ∧
        shared_ptr_wrapper.get ret s' = .ok nullptr s' ∧
        shared_ptr_wrapper.to_bool ret s' = .ok false s' ∧
        (∀ q, q ≤ s.brk → s'.cntrs q = s.cntrs q) ∧
        s'.cntrs wh.ref_cntr = s.cntrs wh.ref_cntr) := by
  refine ⟨?_, ?_⟩
  · intro hexp
    by_cases hn : wh.ref_cntr = nullptr
    · simp [weak_ptr_wrapper.expired, load_wp, hw, hn] at hexp
    · cases hc : s.cntrs wh.ref_cntr with
      | none =>
        simp [weak_ptr_wrapper.expired, load_wp, hw, hn, call_get_shared_refs, deref, hc] at hexp
      | some c =>
        have hne : c.shared_refs ≠ 0 := by
          intro e
          simp [weak_ptr_wrapper.expired, load_wp, hw, hn, call_get_shared_refs, deref, hc,
            ref_counter.get_shared_refs, e] at hexp
        obtain ⟨h0, hw0⟩ := hnn c hc
        have hlock : weak_ptr_wrapper.lock w ret s = .ok ()
            { s with sp := Function.update s.sp ret
                       (some { obj_ptr := wh.obj_ptr, ref_cntr := wh.ref_cntr })
                     cntrs := Function.update s.cntrs wh.ref_cntr (some c.inc_shared) } := by
          simp [weak_ptr_wrapper.lock, weak_ptr_wrapper.expired, load_wp, hw, hn,
            call_get_shared_refs, deref, hc, ref_counter.get_shared_refs, hne,
            shared_ptr_wrapper.ctor_from_weak, store_sp, load_sp, call_inc_shared, poke]
        obtain ⟨s2, hrun, _, _, _, _, hcn, _, _⟩ := release_bound (fun _ => false)
          { s with sp := Function.update s.sp ret
                     (some { obj_ptr := wh.obj_ptr, ref_cntr := wh.ref_cntr })
                   cntrs := Function.update s.cntrs wh.ref_cntr (some c.inc_shared) }
          ret { obj_ptr := wh.obj_ptr, ref_cntr := wh.ref_cntr } c.inc_shared
          (by simp) hn (by simp) (by simp [ref_counter.inc_shared]; omega)
          (by simpa [ref_counter.inc_shared] using hw0)
          (by
            intro e
            simp [ref_counter.inc_shared] at e
            exact absurd e hne)
        refine ⟨c, _, s2, rfl, hlock, ?_, ?_, ?_, ?_, ?_, ?_⟩
        · simp [shared_ptr_wrapper.get, load_sp]
        · simp
        · simp [ref_counter.inc_shared]
        · simp [shared_ptr_wrapper.use_count, load_sp, hn, call_get_shared_refs, deref,
            ref_counter.get_shared_refs, ref_counter.inc_shared]
        · simpa [release] using hrun
        · have hne1 : ¬ (c.shared_refs + 1 = 1 ∧ c.weak_refs = 0) := fun e => hne (by omega)
          rw [hcn]
          simp [ref_counter.inc_shared, hne]
  · intro hexp
    have hfresh : wh.ref_cntr ≠ s.brk + 1 := Nat.ne_of_lt (Nat.lt_succ_of_le hbrk)
    have hlock : weak_ptr_wrapper.lock w ret s = shared_ptr_wrapper.ctor_default ret s := by
      by_cases hn : wh.ref_cntr = nullptr
      · simp [weak_ptr_wrapper.lock, weak_ptr_wrapper.expired, load_wp, hw, hn]
      · cases hc : s.cntrs wh.ref_cntr with
        | none =>
          simp [weak_ptr_wrapper.expired, load_wp, hw, hn, call_get_shared_refs, deref, hc]
            at hexp
        | some c =>
          have he : c.shared_refs = 0 := by
            by_contra e
            simp [weak_ptr_wrapper.expired, load_wp, hw, hn, call_get_shared_refs, deref, hc,
              ref_counter.get_shared_refs, e] at hexp
          simp [weak_ptr_wrapper.lock, weak_ptr_wrapper.expired, load_wp, hw, hn,
            call_get_shared_refs, deref, hc, ref_counter.get_shared_refs, he]
    rw [hlock]
    refine ⟨_, rfl, rfl, ?_, ?_, ?_, ?_⟩
    · simp [shared_ptr_wrapper.ctor_default, shared_ptr_wrapper.set_ptr, new_ref_counter,
        store_sp, shared_ptr_wrapper.get, load_sp]
    · simp [shared_ptr_wrapper.ctor_default, shared_ptr_wrapper.set_ptr, new_ref_counter,
        store_sp, shared_ptr_wrapper.get, load_sp, shared_ptr_wrapper.to_bool]
    · intro q hq
      have : q ≠ s.brk + 1 := Nat.ne_of_lt (Nat.lt_succ_of_le hq)
      simp [Function.update, this]
    · simp [Function.update, hfresh]

/-- C5 at two concrete inputs: a weak handle that is not expired, and one that is. -/
theorem lock_spec_witness :
    (ex_two_strong_one_weak.wp 0 = some { obj_ptr := 1, ref_cntr := 2 } ∧
      (∀ c, ex_two_strong_one_weak.cntrs 2 = some c → 0 ≤ c.shared_refs ∧ 0 ≤ c.weak_refs) ∧
      (2 : Ptr) ≤ ex_two_strong_one_weak.brk ∧
      weak_ptr_wrapper.expired 0 ex_two_strong_one_weak = .ok false ex_two_strong_one_weak) ∧
    (∃ c s' s'', ex_two_strong_one_weak.cntrs 2 = some c ∧
        weak_ptr_wrapper.lock 0 2 ex_two_strong_one_weak = .ok () s' ∧
        shared_ptr_wrapper.get 2 s' = .ok 1 s' ∧
        s'.sp 2 = some { obj_ptr := 1, ref_cntr := 2 } ∧
        s'.cntrs 2 = some { shared_refs := c.shared_refs + 1, weak_refs := c.weak_refs } ∧
        shared_ptr_wrapper.use_count 2 s' = .ok (c.shared_refs + 1) s' ∧
        shared_ptr_wrapper.dtor 2 s' = .ok () s'' ∧
        s''.cntrs 2 = some c) ∧
    (ex_expired_weak.wp 0 = some { obj_ptr := 1, ref_cntr := 2 } ∧
      (∀ c, ex_expired_weak.cntrs 2 = some c → 0 ≤ c.shared_refs ∧ 0 ≤ c.weak_refs) ∧
      (2 : Ptr) ≤ ex_expired_weak.brk ∧
      weak_ptr_wrapper.expired 0 ex_expired_weak = .ok true ex_expired_weak) ∧
    (∃ s', weak_ptr_wrapper.lock 0 2 ex_expired_weak = .ok () s' ∧
        shared_ptr_wrapper.ctor_default 2 ex_expired_weak = .ok () s' ∧
        shared_ptr_wrapper.get 2 s' = .ok nullptr s' ∧
        shared_ptr_wrapper.to_bool 2 s' = .ok false s' ∧
        (∀ q, q ≤ ex_expired_weak.brk → s'.cntrs q = ex_expired_weak.cntrs q) ∧
        s'.cntrs 2 = ex_expired_weak.cntrs 2) :=
  ⟨⟨rfl, fun c hc => by cases hc; exact ⟨by decide, by decide⟩, by decide, rfl⟩,
    (lock_spec ex_two_strong_one_weak 0 2 { obj_ptr := 1, ref_cntr := 2 } rfl
      (fun c hc => by cases hc; exact ⟨by decide, by decide⟩) (by decide)).1 rfl,
    ⟨rfl, fun c hc => by cases hc; exact ⟨by decide, by decide⟩, by decide, rfl⟩,
    (lock_spec ex_expired_weak 0 2 { obj_ptr := 1, ref_cntr := 2 } rfl
      (fun c hc => by cases hc; exact ⟨by decide, by decide⟩) (by decide)).2 rfl⟩

/-! ## C6 -/

/-- C6, the code at the failing input: after `make_shared`, a weak handle on the result
and the release of the only strong handle, the weak handle is expired (block `(0, 1)`,
target disposed). Constructing a strong handle from it returns normally, sets the
strong count back to `1` and binds the new handle to the disposed target; releasing
that handle deletes the target a second time. -/
theorem ctor_from_expired_weak_resurrects :
    ((expired_weak_scenario >>= fun _ => weak_ptr_wrapper.expired 0) State.init).value
      = some true ∧
    (((expired_weak_scenario >>= fun _ => shared_ptr_wrapper.ctor_from_weak 1 0)
        State.init).final.map fun s => (s.cntrs 2, s.sp 1, s.objs 3, s.disposed))
      = some (some { shared_refs := 1, weak_refs := 1 },
          some { obj_ptr := 3, ref_cntr := 2 }, false, [3]) ∧
    ((expired_weak_scenario >>= fun _ => shared_ptr_wrapper.ctor_from_weak 1 0 >>= fun _ =>
        shared_ptr_wrapper.use_count 1) State.init).value = some 1 ∧
    ((expired_weak_scenario >>= fun _ => shared_ptr_wrapper.ctor_from_weak 1 0 >>= fun _ =>
        shared_ptr_wrapper.reset 1) State.init).ub = some UB.double_free := by
  refine ⟨rfl, rfl, rfl, rfl⟩

/-! ## C7 -/

/-- C7: `dec_shared` throws the logic error exactly when `shared_refs` is `0` before the
call, and `dec_weak` exactly when `weak_refs` is `0`; when it throws, the block is
unchanged, and otherwise the named counter is one less and the other is unchanged. -/
theorem dec_throws_iff_zero (c : ref_counter) :
    ((c.dec_shared.1 = some (.logic_error "shared references: already zero") ↔
        c.shared_refs = 0) ∧
      (c.dec_shared.1 = none ↔ c.shared_refs ≠ 0) ∧
      (c.shared_refs = 0 → c.dec_shared.2 = c) ∧
      (c.shared_refs ≠ 0 →
        c.dec_shared.2.shared_refs = c.shared_refs - 1 ∧
        c.dec_shared.2.weak_refs = c.weak_refs)) ∧
    ((c.dec_weak.1 = some (.logic_error "weak references: already zero") ↔
        c.weak_refs = 0) ∧
      (c.dec_weak.1 = none ↔ c.weak_refs ≠ 0) ∧
      (c.weak_refs = 0 → c.dec_weak.2 = c) ∧
      (c.weak_refs ≠ 0 →
        c.dec_weak.2.weak_refs = c.weak_refs - 1 ∧
        c.dec_weak.2.shared_refs = c.shared_refs)) := by
  unfold ref_counter.dec_shared ref_counter.dec_weak
  refine ⟨⟨?_, ?_, ?_, ?_⟩, ⟨?_, ?_, ?_, ?_⟩⟩ <;> split <;> simp_all

/-! ## C8 -/

/-- C8: release of a strong handle `h` by `reset()` or by its destructor. If `h` has a
count block (allocated, strong count positive, target not yet disposed), the strong
count of the block decreases by one, its weak count and every other block are
unchanged, the target is handed to `dispose` exactly when the new strong count is `0`,
and the block is freed exactly when the new strong count and the weak count are both
`0`. If `h` has no block the state is unchanged by `reset()`. After `reset()` the
handle has `get() == nullptr` and `use_count() == 0`; after the destructor it is gone. -/
theorem strong_release_effect (s : State) (i : Nat) (h : shared_ptr_wrapper) (c : ref_counter)
    (by_reset : Nat → Bool)
    (hi : s.sp i = some h)
    (hwf : h.ref_cntr = nullptr → h.obj_ptr = nullptr)
    (hblk : h.ref_cntr ≠ nullptr →
      s.cntrs h.ref_cntr = some c ∧ 0 < c.shared_refs ∧ 0 ≤ c.weak_refs ∧
      (c.shared_refs = 1 → h.obj_ptr = nullptr ∨ s.objs h.obj_ptr = true)) :
    ∃ s', release by_reset i s = .ok () s' ∧
      (by_reset i = true →
        shared_ptr_wrapper.get i s' = .ok nullptr s' ∧
        shared_ptr_wrapper.use_count i s' = .ok 0 s') ∧
      (by_reset i = false → s'.sp i = none) ∧
      (h.ref_cntr = nullptr →
        s'.cntrs = s.cntrs ∧ s'.objs = s.objs ∧ s'.disposed = s.disposed ∧
        (by_reset i = true → s' = s)) ∧
      (h.ref_cntr ≠ nullptr →
        s'.cntrs h.ref_cntr =
          (if c.shared_refs - 1 = 0 ∧ c.weak_refs = 0 then none
           else some { shared_refs := c.shared_refs - 1, weak_refs := c.weak_refs }) ∧
        s'.disposed =
          (if c.shared_refs - 1 = 0 ∧ h.obj_ptr ≠ nullptr then h.obj_ptr :: s.disposed
           else s.disposed) ∧
        s'.objs =
          (if c.shared_refs - 1 = 0 ∧ h.obj_ptr ≠ nullptr
           then Function.update s.objs h.obj_ptr false else s.objs)) ∧
      (∀ q, q ≠ h.ref_cntr → s'.cntrs q = s.cntrs q) ∧
      (∀ k, k ≠ i → s'.sp k = s.sp k) ∧ s'.wp = s.wp := by
  by_cases hn : h.ref_cntr = nullptr
  · have hcd : shared_ptr_wrapper.check_delete_ptr i s = .ok () s := by
      simp [shared_ptr_wrapper.check_delete_ptr, load_sp, hi, hn]
    have ho := hwf hn
    by_cases hr : by_reset i = true
    · refine ⟨s, ?_, ?_, ?_, ?_, ?_, fun _ _ => rfl, fun _ _ => rfl, rfl⟩
      · simp [release, hr, shared_ptr_wrapper.reset, hcd]
      · intro _
        simp [shared_ptr_wrapper.get, shared_ptr_wrapper.use_count, load_sp, hi, hn, ho]
      · intro e
        simp [hr] at e
      · intro _
        exact ⟨rfl, rfl, rfl, fun _ => rfl⟩
      · intro e
        exact absurd hn e
    · refine ⟨{ s with sp := Function.update s.sp i none }, ?_, ?_, ?_, ?_, ?_,
        fun _ _ => rfl, ?_, rfl⟩
      · simp [release, hr, shared_ptr_wrapper.dtor, hcd, kill_sp]
      · intro e
        exact absurd e hr
      · intro _
        simp
      · intro _
        exact ⟨rfl, rfl, rfl, fun e => absurd e hr⟩
      · intro e
        exact absurd hn e
      · intro k hk
        simp [Function.update, hk]
  · obtain ⟨hc, hpos, hw, hlive⟩ := hblk hn
    obtain ⟨s1, hrun, hsp, hspi, hwp, _, hcn, hob, hdi⟩ :=
      release_bound by_reset s i h c hi hn hc hpos hw hlive
    have h1 : c.shared_refs - 1 = 0 ↔ c.shared_refs = 1 := by omega
    refine ⟨s1, hrun, ?_, ?_, ?_, ?_, ?_, hsp, hwp⟩
    · intro hr
      simp [shared_ptr_wrapper.get, shared_ptr_wrapper.use_count, load_sp, hspi, hr]
    · intro hr
      simp [hspi, hr]
    · intro e
      exact absurd e hn
    · intro _
      refine ⟨?_, ?_, ?_⟩
      · simp [hcn, h1]
      · simp [hdi, h1]
      · simp [hob, h1]
    · intro q hq
      simp [hcn, Function.update, hq]

/-- C8 at two concrete inputs: the last strong handle of `ex_last_strong` (the target is
disposed, the block stays for the weak handle) and the reset handle of
`ex_reset_strong` (nothing changes). -/
theorem strong_release_effect_witness :
    (ex_last_strong.sp 0 = some { obj_ptr := 1, ref_cntr := 2 } ∧
      ex_last_strong.cntrs 2 = some { shared_refs := 1, weak_refs := 1 } ∧
      ex_last_strong.objs 1 = true) ∧
    (∃ s', release (fun _ => true) 0 ex_last_strong = .ok () s' ∧
      shared_ptr_wrapper.get 0 s' = .ok nullptr s' ∧
      shared_ptr_wrapper.use_count 0 s' = .ok 0 s' ∧
      s'.cntrs 2 = some { shared_refs := 0, weak_refs := 1 } ∧
      s'.disposed = [1] ∧ s'.objs 1 = false) ∧
    ex_reset_strong.sp 0 = some { obj_ptr := nullptr, ref_cntr := nullptr } ∧
    (∃ s', release (fun _ => true) 0 ex_reset_strong = .ok () s' ∧ s' = ex_reset_strong) := by
  refine ⟨⟨rfl, rfl, rfl⟩, ?_, rfl, ?_⟩
  · obtain ⟨s', hrun, hreset, _, _, hbound, _, _, _⟩ :=
      strong_release_effect ex_last_strong 0 { obj_ptr := 1, ref_cntr := 2 }
        { shared_refs := 1, weak_refs := 1 } (fun _ => true) rfl
        (fun e => absurd e (by decide))
        (fun _ => ⟨rfl, by decide, by decide, fun _ => Or.inr rfl⟩)
    obtain ⟨hcn, hdi, hob⟩ := hbound (by decide)
    refine ⟨s', hrun, (hreset rfl).1, (hreset rfl).2, ?_, ?_, ?_⟩
    · rw [hcn]
      decide
    · rw [hdi]
      decide
    · rw [hob]
      decide
  · obtain ⟨s', hrun, _, _, hnone, _, _, _, _⟩ :=
      strong_release_effect ex_reset_strong 0 { obj_ptr := nullptr, ref_cntr := nullptr }
        { shared_refs := 0, weak_refs := 0 } (fun _ => true) rfl (fun _ => rfl)
        (fun e => absurd rfl e)
    exact ⟨s', hrun, (hnone rfl).2.2.2 rfl⟩

/-! ## C9 -/

/-- C9, the code at the failing input: `reset()` and the destructor of a
default-constructed weak handle call `dec_weak` through the null `ref_cntr`. -/
theorem weak_release_of_empty_derefs_null :
    ((weak_ptr_wrapper.ctor_default 0 >>= fun _ => weak_ptr_wrapper.reset 0) State.init).ub
      = some UB.null_deref ∧
    ((weak_ptr_wrapper.ctor_default 0 >>= fun _ => weak_ptr_wrapper.dtor 0) State.init).ub
      = some UB.null_deref := by
  refine ⟨rfl, rfl⟩

/-! ## C10 -/

/-- C10, counterexample: a weak handle constructed from a default-constructed strong
handle is built without failure and is not expired; its `use_count()` is `1`. -/
theorem weak_from_default_strong_counterexample :
    ((shared_ptr_wrapper.ctor_default 0 >>= fun _ => weak_ptr_wrapper.ctor_from_shared 0 0)
        State.init).exn = none ∧
    ((shared_ptr_wrapper.ctor_default 0 >>= fun _ => weak_ptr_wrapper.ctor_from_shared 0 0)
        State.init).ub = none ∧
    ((shared_ptr_wrapper.ctor_default 0 >>= fun _ =>
        weak_ptr_wrapper.ctor_from_shared 0 0 >>= fun _ =>
        weak_ptr_wrapper.expired 0) State.init).value = some false ∧
    ((shared_ptr_wrapper.ctor_default 0 >>= fun _ =>
        weak_ptr_wrapper.ctor_from_shared 0 0 >>= fun _ =>
        weak_ptr_wrapper.use_count 0) State.init).value = some 1 := by
  refine ⟨rfl, rfl, rfl, rfl⟩

/-- C10, amended: constructing a weak handle from a default-constructed strong handle
dereferences only the count block that the strong handle allocated, raises its weak
count from `0` to `1`, leaves its strong count at `1`, and yields a weak handle bound
to that block with `expired() == false` and `use_count() == 1`. -/
theorem weak_from_default_strong (s : State) (i w : Nat) :
    ∃ s1 s2, shared_ptr_wrapper.ctor_default i s = .ok () s1 ∧
      s1.sp i = some { obj_ptr := nullptr, ref_cntr := s.brk + 1 } ∧
      s1.cntrs (s.brk + 1) = some { shared_refs := 1, weak_refs := 0 } ∧
      weak_ptr_wrapper.ctor_from_shared w i s1 = .ok () s2 ∧
      s2.wp w = some { obj_ptr := nullptr, ref_cntr := s.brk + 1 } ∧
      s2.cntrs (s.brk + 1) = some { shared_refs := 1, weak_refs := 1 } ∧
      (∀ q, q ≠ s.brk + 1 → s2.cntrs q = s.cntrs q) ∧
      weak_ptr_wrapper.expired w s2 = .ok false s2 ∧
      weak_ptr_wrapper.use_count w s2 = .ok 1 s2 := by
  simp [shared_ptr_wrapper.ctor_default, shared_ptr_wrapper.set_ptr, new_ref_counter, store_sp,
    weak_ptr_wrapper.ctor_from_shared, load_sp, store_wp, load_wp, call_inc_weak, deref, poke,
    nullptr, ref_counter.new, ref_counter.inc_weak, weak_ptr_wrapper.expired,
    weak_ptr_wrapper.use_count, call_get_shared_refs, ref_counter.get_shared_refs]
  intro q hq
  simp [Function.update, hq]

/-! ## C11 -/

/-- C11, the code at failing inputs. After `auto a = make_shared<T>()` from the initial
state, the block at address `1` (allocated by the default constructor of the local
`ptr` and then overwritten in the handle by `reset_ref_counter`) is still allocated
with strong count `1`, and no live strong or weak handle references it. After
`weak_reassign_scenario`, the block at address `2` has weak count `1` and no live weak
handle references it: `w = v` did not release the old binding of `w`. -/
theorem counts_exceed_live_handles :
    (∃ s', make_shared 0 false State.init = .ok () s' ∧
      s'.cntrs 1 = some { shared_refs := 1, weak_refs := 0 } ∧
      (∀ i h, s'.sp i = some h → h.ref_cntr ≠ 1) ∧
      (∀ i h, s'.wp i = some h → h.ref_cntr ≠ 1)) ∧
    (∃ s', weak_reassign_scenario State.init = .ok () s' ∧
      s'.cntrs 2 = some { shared_refs := 1, weak_refs := 1 } ∧
      (∀ i h, s'.wp i = some h → h.ref_cntr ≠ 2)) := by
  refine ⟨⟨_, rfl, rfl, ?_, ?_⟩, ⟨_, rfl, rfl, ?_⟩⟩
  · intro i h hi
    by_cases h0 : i = 0
    · subst h0
      simp [Function.update, State.init] at hi
      subst hi
      decide
    · simp [Function.update, State.init, h0] at hi
  · intro i h hi
    simp [State.init] at hi
  · intro i h hi
    by_cases h0 : i = 0
    · subst h0
      simp [Function.update, State.init] at hi
      subst hi
      decide
    · by_cases h1 : i = 1
      · subst h1
        simp [Function.update, State.init] at hi
        subst hi
        decide
      · simp [Function.update, State.init, h0, h1] at hi

/-! ## C12 -/

/-- C12, counterexample: copy-constructing from a default-constructed strong handle
returns normally and changes a counter: the strong count of the source's block goes
from `1` to `2`, and the copy reports `use_count() == 2`. -/
theorem copy_of_default_changes_count_counterexample :
    ((shared_ptr_wrapper.ctor_default 0) State.init).final.map (fun s => s.cntrs 1)
      = some (some { shared_refs := 1, weak_refs := 0 }) ∧
    ((shared_ptr_wrapper.ctor_default 0 >>= fun _ => shared_ptr_wrapper.ctor_copy 1 0)
        State.init).final.map (fun s => s.cntrs 1)
      = some (some { shared_refs := 2, weak_refs := 0 }) ∧
    ((shared_ptr_wrapper.ctor_default 0 >>= fun _ =>
        shared_ptr_wrapper.ctor_copy 1 0 >>= fun _ =>
        shared_ptr_wrapper.use_count 1) State.init).value = some 2 := by
  refine ⟨rfl, rfl, rfl⟩

/-- C12, amended: copy-constructing `b` from a default-constructed strong handle `a`
returns normally, dereferences only the block that `a` allocated, and yields a handle
that holds no target (`get()` null) and shares that block; the strong count of the
block goes from `1` to `2`, both handles report `use_count() == 2`, and no other block
is changed. -/
theorem copy_of_default_shares_block (s : State) (a b : Nat) (hab : b ≠ a) :
    ∃ s1 s2, shared_ptr_wrapper.ctor_default a s = .ok () s1 ∧
      s1.cntrs (s.brk + 1) = some { shared_refs := 1, weak_refs := 0 } ∧
      shared_ptr_wrapper.ctor_copy b a s1 = .ok () s2 ∧
      s2.sp b = some { obj_ptr := nullptr, ref_cntr := s.brk + 1 } ∧
      s2.sp a = some { obj_ptr := nullptr, ref_cntr := s.brk + 1 } ∧
      shared_ptr_wrapper.get b s2 = .ok nullptr s2 ∧
      s2.cntrs (s.brk + 1) = some { shared_refs := 2, weak_refs := 0 } ∧
      shared_ptr_wrapper.use_count a s2 = .ok 2 s2 ∧
      shared_ptr_wrapper.use_count b s2 = .ok 2 s2 ∧
      (∀ q, q ≠ s.brk + 1 → s2.cntrs q = s.cntrs q) := by
  simp [shared_ptr_wrapper.ctor_default, shared_ptr_wrapper.set_ptr, new_ref_counter, store_sp,
    shared_ptr_wrapper.ctor_copy, load_sp, call_inc_shared, deref, poke, nullptr,
    ref_counter.new, ref_counter.inc_shared, shared_ptr_wrapper.get,
    shared_ptr_wrapper.use_count, call_get_shared_refs, ref_counter.get_shared_refs,
    Function.update, hab, Ne.symm hab]
  intro q hq
  simp [hq]

/-- C12, amended, in the initial state with `a` the object `0` and `b` the object `1`. -/
theorem copy_of_default_shares_block_witness :
    (1 : Nat) ≠ 0 ∧
    ∃ s1 s2, shared_ptr_wrapper.ctor_default 0 State.init = .ok () s1 ∧
      s1.cntrs (State.init.brk + 1) = some { shared_refs := 1, weak_refs := 0 } ∧
      shared_ptr_wrapper.ctor_copy 1 0 s1 = .ok () s2 ∧
      s2.sp 1 = some { obj_ptr := nullptr, ref_cntr := State.init.brk + 1 } ∧
      s2.sp 0 = some { obj_ptr := nullptr, ref_cntr := State.init.brk + 1 } ∧
      shared_ptr_wrapper.get 1 s2 = .ok nullptr s2 ∧
      s2.cntrs (State.init.brk + 1) = some { shared_refs := 2, weak_refs := 0 } ∧
      shared_ptr_wrapper.use_count 0 s2 = .ok 2 s2 ∧
      shared_ptr_wrapper.use_count 1 s2 = .ok 2 s2 ∧
      (∀ q, q ≠ State.init.brk + 1 → s2.cntrs q = State.init.cntrs q) :=
  ⟨by decide, copy_of_default_shares_block State.init 0 1 (by decide)⟩

/-! ## C13 -/

/-- C13: `a` and `b` are distinct strong handles on different allocated blocks (the
block of `a` has a positive strong count and its target is not yet disposed).
Assigning `b` to `a`, by copy or by move, first releases the old binding of `a`: the
strong count of the old block of `a` drops by one (the block is freed when both counts
are then `0`), every other handle on that block reports a `use_count()` one less than
before, and the old target of `a` is disposed exactly when that count reaches `0`.
Afterwards `a` holds the pair `b` held. After copy assignment both report the old count
of `b` plus one; after move assignment `a` reports the old count of `b` and `b` has
both fields null (`get() == nullptr`, `use_count() == 0`). -/
theorem assign_releases_then_binds (s : State) (a b : Nat) (ha hb : shared_ptr_wrapper)
    (ca cb : ref_counter)
    (hab : a ≠ b) (hsa : s.sp a = some ha) (hsb : s.sp b = some hb)
    (hna : ha.ref_cntr ≠ nullptr) (hnb : hb.ref_cntr ≠ nullptr)
    (hdiff : ha.ref_cntr ≠ hb.ref_cntr)
    (hca : s.cntrs ha.ref_cntr = some ca) (hcb : s.cntrs hb.ref_cntr = some cb)
    (hpos : 0 < ca.shared_refs) (hw : 0 ≤ ca.weak_refs)
    (hlive : ca.shared_refs = 1 → ha.obj_ptr = nullptr ∨ s.objs ha.obj_ptr = true) :
    (∃ s', shared_ptr_wrapper.assign_copy a b s = .ok () s' ∧
      s'.sp a = some hb ∧ s'.sp b = some hb ∧
      s'.cntrs hb.ref_cntr =
        some { shared_refs := cb.shared_refs + 1, weak_refs := cb.weak_refs } ∧
      shared_ptr_wrapper.use_count a s' = .ok (cb.shared_refs + 1) s' ∧
      shared_ptr_wrapper.use_count b s' = .ok (cb.shared_refs + 1) s' ∧
      s'.cntrs ha.ref_cntr =
        (if ca.shared_refs - 1 = 0 ∧ ca.weak_refs = 0 then none
         else some { shared_refs := ca.shared_refs - 1, weak_refs := ca.weak_refs }) ∧
      s'.disposed =
        (if ca.shared_refs - 1 = 0 ∧ ha.obj_ptr ≠ nullptr then ha.obj_ptr :: s.disposed
         else s.disposed) ∧
      (∀ k hk, k ≠ a → s.sp k = some hk → hk.ref_cntr = ha.ref_cntr → 1 < ca.shared_refs →
        shared_ptr_wrapper.use_count k s = .ok ca.shared_refs s ∧
        shared_ptr_wrapper.use_count k s' = .ok (ca.shared_refs - 1) s')) ∧
    (∃ s', shared_ptr_wrapper.assign_move a b s = .ok () s' ∧
      s'.sp a = some hb ∧
      s'.sp b = some { obj_ptr := nullptr, ref_cntr := nullptr } ∧
      s'.cntrs hb.ref_cntr = some cb ∧
      shared_ptr_wrapper.use_count a s' = .ok cb.shared_refs s' ∧
      shared_ptr_wrapper.get b s' = .ok nullptr s' ∧
      shared_ptr_wrapper.use_count b s' = .ok 0 s' ∧
      s'.cntrs ha.ref_cntr =
        (if ca.shared_refs - 1 = 0 ∧ ca.weak_refs = 0 then none
         else some { shared_refs := ca.shared_refs - 1, weak_refs := ca.weak_refs }) ∧
      s'.disposed =
        (if ca.shared_refs - 1 = 0 ∧ ha.obj_ptr ≠ nullptr then ha.obj_ptr :: s.disposed
         else s.disposed) ∧
      (∀ k hk, k ≠ a → s.sp k = some hk → hk.ref_cntr = ha.ref_cntr → 1 < ca.shared_refs →
        shared_ptr_wrapper.use_count k s = .ok ca.shared_refs s ∧
        shared_ptr_wrapper.use_count k s' = .ok (ca.shared_refs - 1) s')) := by
  obtain ⟨s1, hrun, hsp, _, _, hcn, _, hdi⟩ :=
    check_delete_ptr_bound s a ha ca hsa hna hca hpos hw hlive
  have hba : b ≠ a := fun e => hab e.symm
  have h1 : ca.shared_refs - 1 = 0 ↔ ca.shared_refs = 1 := by omega
  have hdiff' : hb.ref_cntr ≠ ha.ref_cntr := fun e => hdiff e.symm
  have hb1 : s1.sp b = some hb := by
    rw [hsp]
    simp [Function.update, hba, hsb]
  have ha1 : s1.sp a = some { obj_ptr := nullptr, ref_cntr := nullptr } := by
    rw [hsp]
    simp
  have hcb1 : s1.cntrs hb.ref_cntr = some cb := by
    rw [hcn]
    simp [Function.update, hdiff', hcb]
  have hca1 : s1.cntrs ha.ref_cntr =
      (if ca.shared_refs - 1 = 0 ∧ ca.weak_refs = 0 then none
       else some { shared_refs := ca.shared_refs - 1, weak_refs := ca.weak_refs }) := by
    rw [hcn]
    simp [h1]
  have hdi1 : s1.disposed =
      (if ca.shared_refs - 1 = 0 ∧ ha.obj_ptr ≠ nullptr then ha.obj_ptr :: s.disposed
       else s.disposed) := by
    rw [hdi]
    simp [h1]
  have hother : ∀ k hk, k ≠ a → s.sp k = some hk → hk.ref_cntr = ha.ref_cntr →
      1 < ca.shared_refs →
      s1.sp k = some hk ∧ hk.ref_cntr ≠ nullptr ∧ hk.ref_cntr ≠ hb.ref_cntr ∧
      s1.cntrs hk.ref_cntr =
        some { shared_refs := ca.shared_refs - 1, weak_refs := ca.weak_refs } := by
    intro k hk hka hsk hblk hgt
    have hne1 : ¬ ca.shared_refs = 1 := by omega
    refine ⟨?_, ?_, ?_, ?_⟩
    · rw [hsp]
      simp [Function.update, hka, hsk]
    · rw [hblk]
      exact hna
    · rw [hblk]
      exact hdiff
    · rw [hblk, hcn]
      simp [hne1]
  have hcopy : ∃ s', shared_ptr_wrapper.assign_copy a b s = .ok () s' ∧
      s'.sp = Function.update s1.sp a (some hb) ∧
      s'.cntrs = Function.update s1.cntrs hb.ref_cntr
        (some { shared_refs := cb.shared_refs + 1, weak_refs := cb.weak_refs }) ∧
      s'.disposed = s1.disposed := by
    simp [shared_ptr_wrapper.assign_copy, shared_ptr_wrapper.reset, hrun, load_sp, store_sp,
      hb1, ha1, Function.update, hab, hba, call_inc_shared, deref, poke, hnb, hcb1,
      ref_counter.inc_shared]
  have hmove : ∃ s', shared_ptr_wrapper.assign_move a b s = .ok () s' ∧
      s'.sp = Function.update (Function.update s1.sp a (some hb)) b
        (some { obj_ptr := nullptr, ref_cntr := nullptr }) ∧
      s'.cntrs = s1.cntrs ∧ s'.disposed = s1.disposed := by
    simp [shared_ptr_wrapper.assign_move, shared_ptr_wrapper.reset, hrun, load_sp, store_sp,
      hb1, ha1, Function.update, hab, hba, shared_ptr_wrapper.reset_no_delete]
  refine ⟨?_, ?_⟩
  · obtain ⟨s2, hrun2, hsp2, hcn2, hdi2⟩ := hcopy
    refine ⟨s2, hrun2, ?_, ?_, ?_, ?_, ?_, ?_, ?_, ?_⟩
    · simp [hsp2]
    · simp [hsp2, Function.update, hba, hb1]
    · simp [hcn2]
    · simp [shared_ptr_wrapper.use_count, load_sp, hsp2, hnb, call_get_shared_refs, deref,
        hcn2, ref_counter.get_shared_refs]
    · simp [shared_ptr_wrapper.use_count, load_sp, hsp2, hnb, call_get_shared_refs, deref,
        hcn2, ref_counter.get_shared_refs, Function.update, hba, hb1]
    · simp [hcn2, Function.update, hdiff, hca1]
    · simp [hdi2, hdi1]
    · intro k hk hka hsk hblk hgt
      obtain ⟨e1, e2, e3, e4⟩ := hother k hk hka hsk hblk hgt
      refine ⟨?_, ?_⟩
      · simp [shared_ptr_wrapper.use_count, load_sp, hsk, e2, call_get_shared_refs, deref,
          hblk, hna, hca, ref_counter.get_shared_refs]
      · simp [shared_ptr_wrapper.use_count, load_sp, hsp2, hcn2, Function.update, hka, e1, e2,
          call_get_shared_refs, deref, e3, e4, ref_counter.get_shared_refs]
  · obtain ⟨s2, hrun2, hsp2, hcn2, hdi2⟩ := hmove
    refine ⟨s2, hrun2, ?_, ?_, ?_, ?_, ?_, ?_, ?_, ?_, ?_⟩
    · simp [hsp2, Function.update, hab]
    · simp [hsp2]
    · simp [hcn2, hcb1]
    · simp [shared_ptr_wrapper.use_count, load_sp, hsp2, hnb, call_get_shared_refs, deref,
        hcn2, ref_counter.get_shared_refs, Function.update, hab, hcb1]
    · simp [shared_ptr_wrapper.get, load_sp, hsp2]
    · simp [shared_ptr_wrapper.use_count, load_sp, hsp2]
    · simp [hcn2, hca1]
    · simp [hdi2, hdi1]
    · intro k hk hka hsk hblk hgt
      obtain ⟨e1, e2, e3, e4⟩ := hother k hk hka hsk hblk hgt
      have hkb : k ≠ b := by
        intro e
        subst e
        rw [hsb] at hsk
        cases hsk
        exact hdiff hblk.symm
      refine ⟨?_, ?_⟩
      · simp [shared_ptr_wrapper.use_count, load_sp, hsk, e2, call_get_shared_refs, deref,
          hblk, hna, hca, ref_counter.get_shared_refs]
      · simp [shared_ptr_wrapper.use_count, load_sp, hsp2, hcn2, Function.update, hka, hkb, e1,
          e2, call_get_shared_refs, deref, e4, ref_counter.get_shared_refs]

/-- C13 at concrete inputs in `ex_two_blocks`. Assigning handle `1` to handle `0`: the
other handle `2` on the old block of `0` drops from `2` to `1`. Assigning handle `0` to
handle `1`, the only handle of its target: the target at address `3` is disposed. -/
theorem assign_releases_then_binds_witness :
    ((0 : Nat) ≠ 1 ∧ ex_two_blocks.sp 0 = some { obj_ptr := 1, ref_cntr := 2 } ∧
      ex_two_blocks.sp 1 = some { obj_ptr := 3, ref_cntr := 4 } ∧
      ex_two_blocks.sp 2 = some { obj_ptr := 1, ref_cntr := 2 } ∧
      (2 : Ptr) ≠ nullptr ∧ (4 : Ptr) ≠ nullptr ∧ (2 : Ptr) ≠ 4 ∧
      ex_two_blocks.cntrs 2 = some { shared_refs := 2, weak_refs := 1 } ∧
      ex_two_blocks.cntrs 4 = some { shared_refs := 1, weak_refs := 1 } ∧
      ex_two_blocks.objs 3 = true) ∧
    (∃ s', shared_ptr_wrapper.assign_copy 0 1 ex_two_blocks = .ok () s' ∧
      s'.sp 0 = some { obj_ptr := 3, ref_cntr := 4 } ∧
      shared_ptr_wrapper.use_count 0 s' = .ok (1 + 1) s' ∧
      shared_ptr_wrapper.use_count 1 s' = .ok (1 + 1) s' ∧
      shared_ptr_wrapper.use_count 2 ex_two_blocks = .ok 2 ex_two_blocks ∧
      shared_ptr_wrapper.use_count 2 s' = .ok (2 - 1) s' ∧
      s'.disposed = []) ∧
    (∃ s', shared_ptr_wrapper.assign_move 0 1 ex_two_blocks = .ok () s' ∧
      s'.sp 0 = some { obj_ptr := 3, ref_cntr := 4 } ∧
      shared_ptr_wrapper.use_count 0 s' = .ok 1 s' ∧
      shared_ptr_wrapper.get 1 s' = .ok nullptr s' ∧
      shared_ptr_wrapper.use_count 1 s' = .ok 0 s' ∧
      shared_ptr_wrapper.use_count 2 s' = .ok (2 - 1) s') ∧
    (∃ s', shared_ptr_wrapper.assign_copy 1 0 ex_two_blocks = .ok () s' ∧
      s'.sp 1 = some { obj_ptr := 1, ref_cntr := 2 } ∧
      shared_ptr_wrapper.use_count 1 s' = .ok (2 + 1) s' ∧
      s'.cntrs 4 = some { shared_refs := 0, weak_refs := 1 } ∧
      s'.disposed = [3]) := by
  have h01 := assign_releases_then_binds ex_two_blocks 0 1 { obj_ptr := 1, ref_cntr := 2 }
    { obj_ptr := 3, ref_cntr := 4 } { shared_refs := 2, weak_refs := 1 }
    { shared_refs := 1, weak_refs := 1 } (by decide) rfl rfl (by decide) (by decide)
    (by decide) rfl rfl (by decide) (by decide) (fun e => absurd e (by decide))
  have h10 := assign_releases_then_binds ex_two_blocks 1 0 { obj_ptr := 3, ref_cntr := 4 }
    { obj_ptr := 1, ref_cntr := 2 } { shared_refs := 1, weak_refs := 1 }
    { shared_refs := 2, weak_refs := 1 } (by decide) rfl rfl (by decide) (by decide)
    (by decide) rfl rfl (by decide) (by decide) (fun _ => Or.inr rfl)
  refine ⟨⟨by decide, rfl, rfl, rfl, by decide, by decide, by decide, rfl, rfl, rfl⟩,
    ?_, ?_, ?_⟩
  · obtain ⟨s', hrun, hsa, _, _, hua, hub, _, hdi, hoth⟩ := h01.1
    have h2 := hoth 2 { obj_ptr := 1, ref_cntr := 2 } (by decide) rfl rfl (by decide)
    exact ⟨s', hrun, hsa, hua, hub, h2.1, h2.2, by rw [hdi]; decide⟩
  · obtain ⟨s', hrun, hsa, _, _, hua, hgb, hub, _, _, hoth⟩ := h01.2
    have h2 := hoth 2 { obj_ptr := 1, ref_cntr := 2 } (by decide) rfl rfl (by decide)
    exact ⟨s', hrun, hsa, hua, hgb, hub, h2.2⟩
  · obtain ⟨s', hrun, hsa, _, _, hua, _, hca, hdi, _⟩ := h10.1
    exact ⟨s', hrun, hsa, hua, by rw [hca]; decide, by rw [hdi]; decide⟩

/-! ## C14 -/

/-- C14: move-constructing `dst` from a strong handle `src` gives `dst` the pair of
fields that `src` held, leaves `src` with both fields null (`get() == nullptr`,
`use_count() == 0`), and changes no count block, no target and no other handle. -/
theorem ctor_move_transfers (s : State) (dst src : Nat) (h : shared_ptr_wrapper)
    (hne : dst ≠ src) (hs : s.sp src = some h) :
    ∃ s', shared_ptr_wrapper.ctor_move dst src s = .ok () s' ∧
      s'.sp dst = some h ∧
      s'.sp src = some { obj_ptr := nullptr, ref_cntr := nullptr } ∧
      shared_ptr_wrapper.get src s' = .ok nullptr s' ∧
      shared_ptr_wrapper.use_count src s' = .ok 0 s' ∧
      s'.cntrs = s.cntrs ∧ s'.objs = s.objs ∧ s'.disposed = s.disposed ∧ s'.wp = s.wp ∧
      (∀ k, k ≠ dst → k ≠ src → s'.sp k = s.sp k) := by
  simp [shared_ptr_wrapper.ctor_move, shared_ptr_wrapper.reset_no_delete, load_sp, store_sp,
    hs, Function.update, hne, Ne.symm hne, shared_ptr_wrapper.get,
    shared_ptr_wrapper.use_count]
  intro k hk1 hk2
  simp [hk1, hk2]

/-- C14 at a concrete state: moving handle `1` of `ex_two_blocks` into object `5`. -/
theorem ctor_move_transfers_witness :
    ((5 : Nat) ≠ 1 ∧ ex_two_blocks.sp 1 = some { obj_ptr := 3, ref_cntr := 4 }) ∧
    ∃ s', shared_ptr_wrapper.ctor_move 5 1 ex_two_blocks = .ok () s' ∧
      s'.sp 5 = some { obj_ptr := 3, ref_cntr := 4 } ∧
      s'.sp 1 = some { obj_ptr := nullptr, ref_cntr := nullptr } ∧
      shared_ptr_wrapper.get 1 s' = .ok nullptr s' ∧
      shared_ptr_wrapper.use_count 1 s' = .ok 0 s' ∧
      s'.cntrs = ex_two_blocks.cntrs ∧ s'.objs = ex_two_blocks.objs ∧
      s'.disposed = ex_two_blocks.disposed ∧ s'.wp = ex_two_blocks.wp ∧
      (∀ k, k ≠ 5 → k ≠ 1 → s'.sp k = ex_two_blocks.sp k) :=
  ⟨⟨by decide, rfl⟩,
    ctor_move_transfers ex_two_blocks 5 1 { obj_ptr := 3, ref_cntr := 4 } (by decide) rfl⟩

/-! ## C15 -/

/-- C15: for every two live strong handles `a` and `b`, `a.swap(b)` leaves `a` with the
fields `b` held and `b` with the fields `a` held, and changes no count block, no
target, no other strong handle and no weak handle. For every two live weak handles `x`
and `y`, `x.swap(y)` does the same on the weak side. Each half needs only its own two
handles to be alive; the two operands may be the same object. -/
theorem swap_exchanges (s : State) (a b x y : Nat) (ha hb : shared_ptr_wrapper)
    (wx wy : weak_ptr_wrapper) :
    (s.sp a = some ha → s.sp b = some hb →
      ∃ s', shared_ptr_wrapper.swap a b s = .ok () s' ∧
        s'.sp a = some hb ∧ s'.sp b = some ha ∧
        (∀ k, k ≠ a → k ≠ b → s'.sp k = s.sp k) ∧
        s'.cntrs = s.cntrs ∧ s'.objs = s.objs ∧ s'.disposed = s.disposed ∧ s'.wp = s.wp) ∧
    (s.wp x = some wx → s.wp y = some wy →
      ∃ s', weak_ptr_wrapper.swap x y s = .ok () s' ∧
        s'.wp x = some wy ∧ s'.wp y = some wx ∧
        (∀ k, k ≠ x → k ≠ y → s'.wp k = s.wp k) ∧
        s'.cntrs = s.cntrs ∧ s'.objs = s.objs ∧ s'.disposed = s.disposed ∧ s'.sp = s.sp) := by
  refine ⟨?_, ?_⟩
  · intro hsa hsb
    by_cases hab : a = b
    · subst hab
      have e1 : ha = hb := Option.some.inj (hsa.symm.trans hsb)
      subst e1
      simp [shared_ptr_wrapper.swap, load_sp, store_sp, hsa, Function.update]
      intro k hk
      simp [hk]
    · have hba : ¬ b = a := fun e => hab e.symm
      simp [shared_ptr_wrapper.swap, load_sp, store_sp, hsa, hsb, Function.update, hab, hba]
      intro k hk1 hk2
      simp [hk1, hk2]
  · intro hwx hwy
    by_cases hxy : x = y
    · subst hxy
      have e2 : wx = wy := Option.some.inj (hwx.symm.trans hwy)
      subst e2
      simp [weak_ptr_wrapper.swap, load_wp, store_wp, hwx, Function.update]
      intro k hk
      simp [hk]
    · have hyx : ¬ y = x := fun e => hxy e.symm
      simp [weak_ptr_wrapper.swap, load_wp, store_wp, hwx, hwy, Function.update, hxy, hyx]
      intro k hk1 hk2
      simp [hk1, hk2]

/-- C15 at concrete states. Strong half: the state of `test_swap` after its two
`make_shared` calls, in which no weak handle exists. Weak half: the weak handles `0`
and `1` of `ex_two_blocks`; and in `ex_expired_weak`, which has no strong handle, the
weak handle `0` swapped with itself. -/
theorem swap_exchanges_witness :
    (∃ s0, two_factories_scenario State.init = .ok () s0 ∧
      (∀ i, s0.wp i = none) ∧
      s0.sp 0 = some { obj_ptr := 3, ref_cntr := 2 } ∧
      s0.sp 1 = some { obj_ptr := 6, ref_cntr := 5 } ∧
      ∃ s', shared_ptr_wrapper.swap 0 1 s0 = .ok () s' ∧
        s'.sp 0 = some { obj_ptr := 6, ref_cntr := 5 } ∧
        s'.sp 1 = some { obj_ptr := 3, ref_cntr := 2 } ∧
        (∀ k, k ≠ 0 → k ≠ 1 → s'.sp k = s0.sp k) ∧
        s'.cntrs = s0.cntrs ∧ s'.objs = s0.objs ∧ s'.disposed = s0.disposed ∧
        s'.wp = s0.wp) ∧
    (ex_two_blocks.wp 0 = some { obj_ptr := 3, ref_cntr := 4 } ∧
      ex_two_blocks.wp 1 = some { obj_ptr := 1, ref_cntr := 2 }) ∧
    (∃ s', weak_ptr_wrapper.swap 0 1 ex_two_blocks = .ok () s' ∧
      s'.wp 0 = some { obj_ptr := 1, ref_cntr := 2 } ∧
      s'.wp 1 = some { obj_ptr := 3, ref_cntr := 4 } ∧
      (∀ k, k ≠ 0 → k ≠ 1 → s'.wp k = ex_two_blocks.wp k) ∧
      s'.cntrs = ex_two_blocks.cntrs ∧ s'.objs = ex_two_blocks.objs ∧
      s'.disposed = ex_two_blocks.disposed ∧ s'.sp = ex_two_blocks.sp) ∧
    ((∀ i, ex_expired_weak.sp i = none) ∧
      ex_expired_weak.wp 0 = some { obj_ptr := 1, ref_cntr := 2 }) ∧
    (∃ s', weak_ptr_wrapper.swap 0 0 ex_expired_weak = .ok () s' ∧
      s'.wp 0 = some { obj_ptr := 1, ref_cntr := 2 } ∧
      s'.wp 0 = some { obj_ptr := 1, ref_cntr := 2 } ∧
      (∀ k, k ≠ 0 → k ≠ 0 → s'.wp k = ex_expired_weak.wp k) ∧
      s'.cntrs = ex_expired_weak.cntrs ∧ s'.objs = ex_expired_weak.objs ∧
      s'.disposed = ex_expired_weak.disposed ∧ s'.sp = ex_expired_weak.sp) :=
  ⟨⟨_, rfl, fun _ => rfl, rfl, rfl,
      (swap_exchanges _ 0 1 0 0 { obj_ptr := 3, ref_cntr := 2 }
        { obj_ptr := 6, ref_cntr := 5 } { obj_ptr := nullptr, ref_cntr := nullptr }
        { obj_ptr := nullptr, ref_cntr := nullptr }).1 rfl rfl⟩,
    ⟨rfl, rfl⟩,
    (swap_exchanges ex_two_blocks 0 1 0 1 { obj_ptr := 1, ref_cntr := 2 }
      { obj_ptr := 3, ref_cntr := 4 } { obj_ptr := 3, ref_cntr := 4 }
      { obj_ptr := 1, ref_cntr := 2 }).2 rfl rfl,
    ⟨fun _ => rfl, rfl⟩,
    (swap_exchanges ex_expired_weak 0 0 0 0 { obj_ptr := nullptr, ref_cntr := nullptr }
      { obj_ptr := nullptr, ref_cntr := nullptr } { obj_ptr := 1, ref_cntr := 2 }
      { obj_ptr := 1, ref_cntr := 2 }).2 rfl rfl⟩

/-! ## C16 -/

/-- C16: for live strong handles `a` and `b`, `a == b` is true exactly when `a.get()`
and `b.get()` are the same address and `a != b` is its negation; `a != nullptr` (in
either operand order, one function) is true exactly when `a` holds a target, which is
the value of the boolean conversion, and `a == nullptr` is its negation. -/
theorem equality_by_target_address (s : State) (a b : Nat) (ha hb : shared_ptr_wrapper)
    (hsa : s.sp a = some ha) (hsb : s.sp b = some hb) :
    shared_ptr_wrapper.get a s = .ok ha.obj_ptr s ∧
    shared_ptr_wrapper.get b s = .ok hb.obj_ptr s ∧
    shared_ptr_wrapper.op_eq a b s = .ok (decide (ha.obj_ptr = hb.obj_ptr)) s ∧
    shared_ptr_wrapper.op_ne a b s = .ok (!decide (ha.obj_ptr = hb.obj_ptr)) s ∧
    shared_ptr_wrapper.op_ne_nullptr a s = .ok (decide (ha.obj_ptr ≠ nullptr)) s ∧
    shared_ptr_wrapper.op_eq_nullptr a s = .ok (!decide (ha.obj_ptr ≠ nullptr)) s ∧
    shared_ptr_wrapper.to_bool a s = .ok (decide (ha.obj_ptr ≠ nullptr)) s := by
  simp [shared_ptr_wrapper.get, shared_ptr_wrapper.op_eq, shared_ptr_wrapper.op_ne,
    shared_ptr_wrapper.op_ne_nullptr, shared_ptr_wrapper.op_eq_nullptr,
    shared_ptr_wrapper.to_bool, load_sp, hsa, hsb]

/-- C16 at a concrete state: handles `0` and `1` of `ex_two_blocks`. -/
theorem equality_by_target_address_witness :
    (ex_two_blocks.sp 0 = some { obj_ptr := 1, ref_cntr := 2 } ∧
      ex_two_blocks.sp 1 = some { obj_ptr := 3, ref_cntr := 4 }) ∧
    shared_ptr_wrapper.get 0 ex_two_blocks = .ok 1 ex_two_blocks ∧
    shared_ptr_wrapper.get 1 ex_two_blocks = .ok 3 ex_two_blocks ∧
    shared_ptr_wrapper.op_eq 0 1 ex_two_blocks = .ok (decide ((1 : Ptr) = 3)) ex_two_blocks ∧
    shared_ptr_wrapper.op_ne 0 1 ex_two_blocks = .ok (!decide ((1 : Ptr) = 3)) ex_two_blocks ∧
    shared_ptr_wrapper.op_ne_nullptr 0 ex_two_blocks
      = .ok (decide ((1 : Ptr) ≠ nullptr)) ex_two_blocks ∧
    shared_ptr_wrapper.op_eq_nullptr 0 ex_two_blocks
      = .ok (!decide ((1 : Ptr) ≠ nullptr)) ex_two_blocks ∧
    shared_ptr_wrapper.to_bool 0 ex_two_blocks
      = .ok (decide ((1 : Ptr) ≠ nullptr)) ex_two_blocks :=
  ⟨⟨rfl, rfl⟩,
    equality_by_target_address ex_two_blocks 0 1 { obj_ptr := 1, ref_cntr := 2 }
      { obj_ptr := 3, ref_cntr := 4 } rfl rfl⟩

/-! ## C17 -/

/-- C17: for a strong handle `a` with an allocated count block, constructing the weak
handle `w` from `a`, and then copy-constructing the weak handle `v` from `w`, each
raises the weak count of the block by one and leaves its strong count and every other
block unchanged; `w.use_count()`, `v.use_count()` and `a.use_count()` all equal the
`use_count()` of `a` before. -/
theorem weak_ctor_counts (s : State) (a w v : Nat) (h : shared_ptr_wrapper) (c : ref_counter)
    (ha : s.sp a = some h) (hn : h.ref_cntr ≠ nullptr)
    (hc : s.cntrs h.ref_cntr = some c) :
    ∃ s1 s2, weak_ptr_wrapper.ctor_from_shared w a s = .ok () s1 ∧
      s1.wp w = some { obj_ptr := h.obj_ptr, ref_cntr := h.ref_cntr } ∧
      s1.cntrs h.ref_cntr =
        some { shared_refs := c.shared_refs, weak_refs := c.weak_refs + 1 } ∧
      (∀ q, q ≠ h.ref_cntr → s1.cntrs q = s.cntrs q) ∧
      shared_ptr_wrapper.use_count a s = .ok c.shared_refs s ∧
      shared_ptr_wrapper.use_count a s1 = .ok c.shared_refs s1 ∧
      weak_ptr_wrapper.use_count w s1 = .ok c.shared_refs s1 ∧
      weak_ptr_wrapper.ctor_copy v w s1 = .ok () s2 ∧
      s2.wp v = some { obj_ptr := h.obj_ptr, ref_cntr := h.ref_cntr } ∧
      s2.cntrs h.ref_cntr =
        some { shared_refs := c.shared_refs, weak_refs := c.weak_refs + 1 + 1 } ∧
      (∀ q, q ≠ h.ref_cntr → s2.cntrs q = s.cntrs q) ∧
      shared_ptr_wrapper.use_count a s2 = .ok c.shared_refs s2 ∧
      weak_ptr_wrapper.use_count v s2 = .ok c.shared_refs s2 := by
  simp [weak_ptr_wrapper.ctor_from_shared, weak_ptr_wrapper.ctor_copy, load_sp, load_wp,
    store_wp, call_inc_weak, deref, poke, ha, hn, hc, ref_counter.inc_weak,
    shared_ptr_wrapper.use_count, weak_ptr_wrapper.use_count, call_get_shared_refs,
    ref_counter.get_shared_refs, Function.update]
  refine ⟨?_, ?_⟩
  · intro q hq
    simp [hq]
  · intro q hq
    simp [hq]

/-- C17 at a concrete state: handle `1` of `ex_two_blocks` (block `(1, 1)`). -/
theorem weak_ctor_counts_witness :
    (ex_two_blocks.sp 1 = some { obj_ptr := 3, ref_cntr := 4 } ∧
      (4 : Ptr) ≠ nullptr ∧
      ex_two_blocks.cntrs 4 = some { shared_refs := 1, weak_refs := 1 }) ∧
    ∃ s1 s2, weak_ptr_wrapper.ctor_from_shared 5 1 ex_two_blocks = .ok () s1 ∧
      s1.wp 5 = some { obj_ptr := 3, ref_cntr := 4 } ∧
      s1.cntrs 4 = some { shared_refs := 1, weak_refs := 1 + 1 } ∧
      (∀ q, q ≠ 4 → s1.cntrs q = ex_two_blocks.cntrs q) ∧
      shared_ptr_wrapper.use_count 1 ex_two_blocks = .ok 1 ex_two_blocks ∧
      shared_ptr_wrapper.use_count 1 s1 = .ok 1 s1 ∧
      weak_ptr_wrapper.use_count 5 s1 = .ok 1 s1 ∧
      weak_ptr_wrapper.ctor_copy 6 5 s1 = .ok () s2 ∧
      s2.wp 6 = some { obj_ptr := 3, ref_cntr := 4 } ∧
      s2.cntrs 4 = some { shared_refs := 1, weak_refs := 1 + 1 + 1 } ∧
      (∀ q, q ≠ 4 → s2.cntrs q = ex_two_blocks.cntrs q) ∧
      shared_ptr_wrapper.use_count 1 s2 = .ok 1 s2 ∧
      weak_ptr_wrapper.use_count 6 s2 = .ok 1 s2 :=
  ⟨⟨rfl, by decide, rfl⟩,
    weak_ctor_counts ex_two_blocks 1 5 6 { obj_ptr := 3, ref_cntr := 4 }
      { shared_refs := 1, weak_refs := 1 } rfl (by decide) rfl⟩

/-! ## C18 -/

/-- C18, the code at the failing input: when the constructor of the target throws in
`make_shared` or in `make_shared_array` (element `1` of `3`), the exception reaches the
caller, the local handle and its own block (address `1`) are gone, no target is
allocated, but the block from `new ref_counter()` (address `2`) is still allocated
with counts `(1, 0)`. -/
theorem factory_throw_leaks_block :
    (make_shared 0 true State.init).exn = some Exn.ctor_exception ∧
    ((make_shared 0 true State.init).at_throw.map
        fun s => (s.sp 0, s.cntrs 1, s.objs 3, s.cntrs 2))
      = some (none, none, false, some { shared_refs := 1, weak_refs := 0 }) ∧
    (make_shared_array 0 3 (some 1) State.init).exn = some Exn.ctor_exception ∧
    ((make_shared_array 0 3 (some 1) State.init).at_throw.map
        fun s => (s.sp 0, s.cntrs 1, s.objs 3, s.cntrs 2))
      = some (none, none, false, some { shared_refs := 1, weak_refs := 0 }) ∧
    (∃ s', make_shared 0 true State.init = .thrown Exn.ctor_exception s' ∧
      s'.cntrs 2 = some { shared_refs := 1, weak_refs := 0 } ∧
      (∀ i, s'.sp i = none) ∧ (∀ i, s'.wp i = none) ∧ (∀ p, s'.objs p = false)) := by
  refine ⟨rfl, rfl, rfl, rfl, _, rfl, rfl, ?_, ?_, ?_⟩
  · intro i
    by_cases h0 : i = 0
    · subst h0
      rfl
    · simp [Function.update, State.init, h0]
  · intro i
    rfl
  · intro p
    rfl

/-! ## C19 -/

/-- C19: for live strong handles `a` and `b` the six comparison operators return the
corresponding comparisons of the target addresses, so exactly one of `a < b`,
`a == b`, `a > b` is true, `a <= b` is `a < b || a == b`, `a >= b` is
`a > b || a == b`, and `a > b` is `b < a`. -/
theorem comparisons_total_order (s : State) (a b : Nat) (ha hb : shared_ptr_wrapper)
    (hsa : s.sp a = some ha) (hsb : s.sp b = some hb) :
    ∃ lt eq gt le ge lt' : Bool,
      shared_ptr_wrapper.op_lt a b s = .ok lt s ∧
      shared_ptr_wrapper.op_eq a b s = .ok eq s ∧
      shared_ptr_wrapper.op_gt a b s = .ok gt s ∧
      shared_ptr_wrapper.op_le a b s = .ok le s ∧
      shared_ptr_wrapper.op_ge a b s = .ok ge s ∧
      shared_ptr_wrapper.op_lt b a s = .ok lt' s ∧
      lt = decide (ha.obj_ptr < hb.obj_ptr) ∧
      eq = decide (ha.obj_ptr = hb.obj_ptr) ∧
      ((lt = true ∧ eq = false ∧ gt = false) ∨ (lt = false ∧ eq = true ∧ gt = false) ∨
        (lt = false ∧ eq = false ∧ gt = true)) ∧
      le = (lt || eq) ∧ ge = (gt || eq) ∧ gt = lt' := by
  have e_lt : shared_ptr_wrapper.op_lt a b s = .ok (decide (ha.obj_ptr < hb.obj_ptr)) s := by
    simp [shared_ptr_wrapper.op_lt, shared_ptr_wrapper.get, load_sp, hsa, hsb]
  have e_eq : shared_ptr_wrapper.op_eq a b s = .ok (decide (ha.obj_ptr = hb.obj_ptr)) s := by
    simp [shared_ptr_wrapper.op_eq, shared_ptr_wrapper.get, load_sp, hsa, hsb]
  have e_gt : shared_ptr_wrapper.op_gt a b s = .ok (decide (hb.obj_ptr < ha.obj_ptr)) s := by
    by_cases hlt : ha.obj_ptr < hb.obj_ptr
    · have h2 : ¬ hb.obj_ptr < ha.obj_ptr := Nat.lt_asymm hlt
      simp [shared_ptr_wrapper.op_gt, shared_ptr_wrapper.op_lt, shared_ptr_wrapper.get,
        load_sp, hsa, hsb, hlt, h2]
    · have h3 : (hb.obj_ptr < ha.obj_ptr) ↔ ¬ ha.obj_ptr = hb.obj_ptr := by
        constructor
        · intro h e
          exact Nat.lt_irrefl _ (e ▸ h)
        · intro h
          rcases Nat.lt_trichotomy ha.obj_ptr hb.obj_ptr with h4 | h4 | h4
          · exact absurd h4 hlt
          · exact absurd h4 h
          · exact h4
      simp [shared_ptr_wrapper.op_gt, shared_ptr_wrapper.op_lt, shared_ptr_wrapper.op_ne,
        shared_ptr_wrapper.op_eq, shared_ptr_wrapper.get, load_sp, hsa, hsb, hlt, h3]
  have e_le : shared_ptr_wrapper.op_le a b s = .ok (!decide (ha.obj_ptr > hb.obj_ptr)) s := by
    simp [shared_ptr_wrapper.op_le, shared_ptr_wrapper.get, load_sp, hsa, hsb]
  have e_ge : shared_ptr_wrapper.op_ge a b s = .ok (!decide (ha.obj_ptr < hb.obj_ptr)) s := by
    simp [shared_ptr_wrapper.op_ge, shared_ptr_wrapper.get, load_sp, hsa, hsb]
  have e_lt' : shared_ptr_wrapper.op_lt b a s = .ok (decide (hb.obj_ptr < ha.obj_ptr)) s := by
    simp [shared_ptr_wrapper.op_lt, shared_ptr_wrapper.get, load_sp, hsa, hsb]
  refine ⟨_, _, _, _, _, _, e_lt, e_eq, e_gt, e_le, e_ge, e_lt', rfl, rfl, ?_, ?_, ?_, rfl⟩
  · rcases Nat.lt_trichotomy ha.obj_ptr hb.obj_ptr with h | h | h
    · have h1 : ¬ ha.obj_ptr = hb.obj_ptr := Nat.ne_of_lt h
      have h2 : ¬ hb.obj_ptr < ha.obj_ptr := Nat.lt_asymm h
      simp [h, h1, h2]
    · simp [h]
    · have h1 : ¬ ha.obj_ptr = hb.obj_ptr := fun e => Nat.ne_of_lt h e.symm
      have h2 : ¬ ha.obj_ptr < hb.obj_ptr := Nat.lt_asymm h
      simp [h, h1, h2]
  · rcases Nat.lt_trichotomy ha.obj_ptr hb.obj_ptr with h | h | h
    · have h1 : ¬ ha.obj_ptr = hb.obj_ptr := Nat.ne_of_lt h
      have h2 : ¬ hb.obj_ptr < ha.obj_ptr := Nat.lt_asymm h
      simp [h, h1, h2]
    · simp [h]
    · have h1 : ¬ ha.obj_ptr = hb.obj_ptr := fun e => Nat.ne_of_lt h e.symm
      have h2 : ¬ ha.obj_ptr < hb.obj_ptr := Nat.lt_asymm h
      simp [h, h1, h2]
  · rcases Nat.lt_trichotomy ha.obj_ptr hb.obj_ptr with h | h | h
    · have h1 : ¬ ha.obj_ptr = hb.obj_ptr := Nat.ne_of_lt h
      have h2 : ¬ hb.obj_ptr < ha.obj_ptr := Nat.lt_asymm h
      simp [h, h1, h2]
    · simp [h]
    · have h1 : ¬ ha.obj_ptr = hb.obj_ptr := fun e => Nat.ne_of_lt h e.symm
      have h2 : ¬ ha.obj_ptr < hb.obj_ptr := Nat.lt_asymm h
      simp [h, h1, h2]

/-- C19 at a concrete state: handles `0` (target `1`) and `1` (target `3`) of
`ex_two_blocks`. -/
theorem comparisons_total_order_witness :
    (ex_two_blocks.sp 0 = some { obj_ptr := 1, ref_cntr := 2 } ∧
      ex_two_blocks.sp 1 = some { obj_ptr := 3, ref_cntr := 4 }) ∧
    ∃ lt eq gt le ge lt' : Bool,
      shared_ptr_wrapper.op_lt 0 1 ex_two_blocks = .ok lt ex_two_blocks ∧
      shared_ptr_wrapper.op_eq 0 1 ex_two_blocks = .ok eq ex_two_blocks ∧
      shared_ptr_wrapper.op_gt 0 1 ex_two_blocks = .ok gt ex_two_blocks ∧
      shared_ptr_wrapper.op_le 0 1 ex_two_blocks = .ok le ex_two_blocks ∧
      shared_ptr_wrapper.op_ge 0 1 ex_two_blocks = .ok ge ex_two_blocks ∧
      shared_ptr_wrapper.op_lt 1 0 ex_two_blocks = .ok lt' ex_two_blocks ∧
      lt = decide ((1 : Ptr) < 3) ∧
      eq = decide ((1 : Ptr) = 3) ∧
      ((lt = true ∧ eq = false ∧ gt = false) ∨ (lt = false ∧ eq = true ∧ gt = false) ∨
        (lt = false ∧ eq = false ∧ gt = true)) ∧
      le = (lt || eq) ∧ ge = (gt || eq) ∧ gt = lt' :=
  ⟨⟨rfl, rfl⟩,
    comparisons_total_order ex_two_blocks 0 1 { obj_ptr := 1, ref_cntr := 2 }
      { obj_ptr := 3, ref_cntr := 4 } rfl rfl⟩

/-! ## C20 -/

/-- C20, the code at failing inputs: `a = a` on the only handle of a target, and on one
of two handles of a target, ends in a call of `inc_shared` through the null pointer:
`reset()` has nulled the fields of `a` before they are read back as `other`. In the
first case the `reset()` that opens the assignment has already disposed the target. -/
theorem self_assign_derefs_null :
    ((make_shared 0 false >>= fun _ => shared_ptr_wrapper.assign_copy 0 0) State.init).ub
      = some UB.null_deref ∧
    (((make_shared 0 false >>= fun _ => shared_ptr_wrapper.reset 0) State.init).final.map
        fun s => (s.sp 0, s.disposed, s.cntrs 2))
      = some (some { obj_ptr := nullptr, ref_cntr := nullptr }, [3], none) ∧
    (self_assign_shared_scenario State.init).ub = some UB.null_deref := by
  refine ⟨rfl, rfl, rfl⟩

end SharedPtr
